import Mathlib

set_option maxRecDepth 16000

/-!
Verification development for the football simulation engine
(`football_sim.py`): a shallow embedding of its data model and operations,
with theorems about determinism, probability bounds, career-stage
transitions, rating clamps, game finalization, stat aggregation and award
ranking.

Modelling conventions:
* Python floats are modelled as rationals (`ℚ`); Python ints as `ℤ`.
* `random.Random` is modelled as a stream of unit draws in `[0,1)` plus a
  position; every primitive (`random`, `uniform`, `randint`, `choice`,
  `choices`) consumes draws from the stream in source order, including
  Python's short-circuit conditional draws.
* `uuid.uuid4()` and `datetime.datetime.utcnow()` are ambient entropy not
  derived from the seeded generator; they are modelled as separate streams
  (`Amb`) threaded exactly where the source calls them.
* `math.exp` is modelled by an arbitrary parameter `ex : ℚ → ℚ`
  (the real exponential is abstracted; theorems that need it assume only
  its positivity, which `Real.exp` satisfies).
* Player attribute dictionaries always contain the seven tracked keys
  after `Player.__post_init__`, so they are embedded as a record.
* Human-readable history strings are embedded as structured entries
  carrying the interpolated values (string formatting elided).
-/

/-- Python `int()` applied to a rational: truncation toward zero. -/
def pyInt (x : ℚ) : ℤ :=
  if x < 0 then -((-x).floor) else x.floor

/-- Round-half-to-even on a rational, producing an integer
(Python's `round` semantics). -/
def roundHalfEven (x : ℚ) : ℤ :=
  if x - (x.floor : ℚ) < 1/2 then x.floor
  else if 1/2 < x - (x.floor : ℚ) then x.floor + 1
  else if x.floor % 2 = 0 then x.floor else x.floor + 1

/-- Python `round(x, d)` for rationals. -/
def pyRound (d : ℕ) (x : ℚ) : ℚ :=
  (roundHalfEven (x * (10 : ℚ) ^ d) : ℚ) / (10 : ℚ) ^ d

/-- Model of `random.Random`: an infinite stream of unit draws together
with the current position.  The Mersenne-Twister generator is abstracted;
bounds theorems quantify over all streams whose draws lie in `[0,1)`. -/
structure RNG where
  stream : ℕ → ℚ
  pos : ℕ

/-- A stream is valid when every draw lies in `[0,1)` (as Python's
`random.random()` guarantees). -/
def validStream (s : ℕ → ℚ) : Prop :=
  ∀ n, 0 ≤ s n ∧ s n < 1

/-- Draw one unit float (`random.random()`). -/
def RNG.next (r : RNG) : ℚ × RNG :=
  (r.stream r.pos, ⟨r.stream, r.pos + 1⟩)

/-- Python `random.uniform(a, b) = a + (b-a) * random()`. -/
def RNG.uniform (r : RNG) (a b : ℚ) : ℚ × RNG :=
  let (u, r') := r.next
  (a + (b - a) * u, r')

/-- Python `random.randint(a, b)`: an integer in `[a, b]`, modelled as
`a + ⌊u * (b - a + 1)⌋` for a unit draw `u`. -/
def RNG.randint (r : RNG) (a b : ℤ) : ℤ × RNG :=
  let (u, r') := r.next
  (a + (u * ((b : ℚ) - (a : ℚ) + 1)).floor, r')

/-- Python `random.choice(seq)`: a uniformly drawn element, modelled by
indexing with `⌊u * len⌋` (with a default for the empty list, which the
source never hits). -/
def RNG.choice {α : Type} (r : RNG) (l : List α) (dflt : α) : α × RNG :=
  let (u, r') := r.next
  (l.getD (u * (l.length : ℚ)).floor.toNat dflt, r')

/-- Index selection for `random.choices(..., weights)`: the first index
whose cumulative weight exceeds `x`, else the last index. -/
def pickWeighted (ws : List ℚ) (x : ℚ) : ℕ :=
  go ws x 0
where
  go : List ℚ → ℚ → ℕ → ℕ
  | [], _, i => i - 1
  | w :: rest, x, i => if x < w then i else go rest (x - w) (i + 1)

/-- Python `random.choices(population, weights)[0]` (one weighted draw). -/
def RNG.choicesOne {α : Type} (r : RNG) (l : List α) (ws : List ℚ) (dflt : α) :
    α × RNG :=
  let (u, r') := r.next
  (l.getD (pickWeighted ws (u * ws.sum)) dflt, r')

/-- One weighted draw returning the chosen index (used for the
`k`-sample `random.choices` of the offer generator). -/
def RNG.choicesIdx (r : RNG) (ws : List ℚ) : ℕ × RNG :=
  let (u, r') := r.next
  (pickWeighted ws (u * ws.sum), r')

/-- Model of `random.Random(seed)`: a fixed deterministic stream per seed
(the concrete Mersenne-Twister output is abstracted by an arbitrary
explicit function of the seed, with all draws in `[0,1)`). -/
def mkRandom (seed : ℤ) : RNG :=
  ⟨fun n => (((seed + n).natAbs % 1000 : ℕ) : ℚ) / 1000, 0⟩

/-- Embedding of `seeded_rand`: resolve the base seed (module `SEED` is
`None`, so the `SIM_SEED` environment value wins when present and parses,
else a time-derived fallback), then return `random.Random(base + offset)`. -/
def seeded_rand (envSeed : Option ℤ) (timeNs : ℤ) (seed_offset : ℤ) : RNG :=
  let base : ℤ :=
    match envSeed with
    | some s => s
    | none => timeNs % 1000000000
  mkRandom (base + seed_offset)

/-- Ambient entropy: the `uuid.uuid4()` and `datetime.utcnow()` streams,
which are *not* derived from the seeded generator. -/
structure Amb where
  uuids : ℕ → String
  times : ℕ → String
  upos : ℕ
  tpos : ℕ

/-- Draw the next `uuid.uuid4()` string. -/
def Amb.nextUuid (a : Amb) : String × Amb :=
  (a.uuids a.upos, ⟨a.uuids, a.times, a.upos + 1, a.tpos⟩)

/-- Draw the next `datetime.datetime.utcnow().isoformat()` string. -/
def Amb.nextTime (a : Amb) : String × Amb :=
  (a.times a.tpos, ⟨a.uuids, a.times, a.upos, a.tpos + 1⟩)

/-- The seven attribute keys that `Player.__post_init__` guarantees
(each defaulted to `50.0` when absent), embedded as a record. -/
structure Attributes where
  speed : ℚ
  strength : ℚ
  awareness : ℚ
  throw_power : ℚ
  catching : ℚ
  route_running : ℚ
  break_tackle : ℚ
deriving DecidableEq

/-- An injury record appended by `GameSimulator` (`{"injury": ..., "when": ...}`). -/
structure InjuryRec where
  injury : String
  since : String
deriving DecidableEq

/-- A career event appended by `GameSimulator`
(`{"type": "injury", "injury": ..., "game_id": ...}`). -/
structure CareerEventRec where
  type_ : String
  injury : String
  game_id : String
deriving DecidableEq

/-- Embedding of the `Player` dataclass.  The `personality` dict is kept
as an association list. -/
structure Player where
  id : String
  name : String
  position : String
  age : ℤ
  attributes : Attributes
  hidden_potential : ℚ
  personality : List (String × ℚ)
  career_events : List CareerEventRec
  morale : ℚ
  fatigue : ℚ
  injuries : List InjuryRec
deriving DecidableEq

/-- The `scheme_bias` dict (`{"pass": ..., "run": ...}`). -/
structure SchemeBias where
  pass : ℚ
  run : ℚ
deriving DecidableEq

/-- The `season_stats` dict. -/
structure SeasonStats where
  wins : ℤ
  losses : ℤ
  points_for : ℤ
  points_against : ℤ
deriving DecidableEq

/-- Embedding of the `Team` dataclass (`finances` kept as the single
`cap` entry its default provides). -/
structure Team where
  id : String
  name : String
  city : String
  roster : List Player
  scheme_bias : SchemeBias
  coach_quality : ℚ
  resources : ℚ
  season_stats : SeasonStats
  finances_cap : ℚ
deriving DecidableEq

/-- Embedding of `team_rating`: mean of awareness, speed and strength over
the roster, `50.0` for an empty roster. -/
def team_rating (team : Team) : ℚ :=
  if team.roster = [] then 50
  else
    let vals := team.roster.flatMap fun p =>
      [p.attributes.awareness, p.attributes.speed, p.attributes.strength]
    vals.sum / (vals.length : ℚ)

/-- Embedding of `PlayResolver._mean`: `statistics.mean(values)` with a
default for the empty list. -/
def meanD (values : List ℚ) (default : ℚ) : ℚ :=
  if values = [] then default else values.sum / (values.length : ℚ)

/-- Embedding of `PlayResolver._logistic`, parameterized by the model
`ex` of `math.exp`. -/
def logistic (ex : ℚ → ℚ) (x : ℚ) : ℚ :=
  1 / (1 + ex (-x))

/-- Result payload of a play event, mirroring the Python result dict:
every field is optional because the dicts built by the three branches of
`resolve_play` carry different key sets, and readers use `dict.get` with
defaults. -/
structure PlayResult where
  complete : Option Bool := none
  yards : Option ℤ := none
  td : Option Bool := none
  interception : Option Bool := none
  pressure : Option Bool := none
  yac : Option ℤ := none
  injury : Option String := none
  broken_tackles : Option ℤ := none
  notes : Option String := none
deriving DecidableEq

/-- A play call: `{"type": ..., "primary": ..., "depth"?: ...}`. -/
structure PlayCall where
  type_ : String
  primary : Player
  depth : Option ℤ
deriving DecidableEq

/-- A raw event: the fields written by `resolve_play`, plus the optional
fields stamped later by `GameSimulator.simulate_game` and by
`EventLog.log`. -/
structure PlayEvent where
  play_type : String
  offense_team : String
  defense_team : String
  primary_player_id : Option String
  involved_ids : List String
  result : PlayResult
  game_id : Option String := none
  quarter : Option ℤ := none
  drive_index : Option ℤ := none
  offense_is_home : Option Bool := none
  event_id : Option String := none
  ts : Option String := none
deriving DecidableEq

/-- QB accuracy: `awareness * 0.6 + throw_power * 0.4`. -/
def qbAccuracy (qb : Player) : ℚ :=
  qb.attributes.awareness * 0.6 + qb.attributes.throw_power * 0.4

/-- Target skill: `route_running * 0.6 + catching * 0.4`. -/
def targetSkill (t : Player) : ℚ :=
  t.attributes.route_running * 0.6 + t.attributes.catching * 0.4

/-- Coverage: mean awareness of defensive DB/LB, default 50. -/
def coverageOf (defense : Team) : ℚ :=
  meanD ((defense.roster.filter fun p =>
    p.position == "DB" || p.position == "LB").map
      fun p => p.attributes.awareness) 50

/-- Pass-rush strength: mean DL strength, default 50. -/
def rushOf (defense : Team) : ℚ :=
  meanD ((defense.roster.filter fun p => p.position == "DL").map
    fun p => p.attributes.strength) 50

/-- Team rating differential `(off_rating - def_rating) / 50`. -/
def ratingDiff (offense defense : Team) : ℚ :=
  (team_rating offense - team_rating defense) / 50

/-- The pressure probability fed to a Bernoulli draw:
`logistic((rush - qb awareness) / 20)`. -/
def pressureProb (ex : ℚ → ℚ) (defense : Team) (qb : Player) : ℚ :=
  logistic ex ((rushOf defense - qb.attributes.awareness) / 20)

/-- The completion probability fed to a Bernoulli draw: base constant plus
scaled skill terms, a pressure penalty, then the `[0.03, 0.95]` clamp. -/
def completionProb (qb target : Player) (offense defense : Team)
    (pressure : Bool) : ℚ :=
  let prob := 0.40 + (qbAccuracy qb - 50) / 220 + (targetSkill target - 50) / 320
    - (coverageOf defense - 50) / 210 + ratingDiff offense defense * 0.1
  let prob := if pressure then prob - 0.10 else prob
  max 0.03 (min 0.95 prob)

/-- The interception parameter fed to a Bernoulli draw on incompletions,
where `u` is the unit draw behind `uniform(0, 0.07)`:
`0.02 + (coverage-50)/400 + uniform(0,0.07) + max(0, (55-qb_awareness)/200)`.
It is not clamped. -/
def interceptionVolatility (defense : Team) (qb : Player) (u : ℚ) : ℚ :=
  0.02 + (coverageOf defense - 50) / 400 + (0 + (0.07 - 0) * u)
    + max 0 ((55 - qb.attributes.awareness) / 200)

/-- The touchdown parameter fed to a Bernoulli draw on completions of at
least 35 yards: `0.06 + (target speed - 50)/220`.  It is not clamped. -/
def tdProbPass (target : Player) : ℚ :=
  0.06 + (target.attributes.speed - 50) / 220

/-- The touchdown parameter for runs of at least 60 yards:
`0.08 + max(0, rating_diff * 0.07)`. -/
def tdProbRun (rating_diff : ℚ) : ℚ :=
  0.08 + max 0 (rating_diff * 0.07)

/-- Offensive line strength: mean OL strength, default 50. -/
def lineStrengthOf (offense : Team) : ℚ :=
  meanD ((offense.roster.filter fun p => p.position == "OL").map
    fun p => p.attributes.strength) 50

/-- Defensive front strength: mean DL+LB strength, default 50. -/
def defFrontOf (defense : Team) : ℚ :=
  meanD ((defense.roster.filter fun p =>
    p.position == "DL" || p.position == "LB").map
      fun p => p.attributes.strength) 50

/-- Embedding of `PlayResolver._sample_injury`: a weighted draw over the
fixed injury names. -/
def sample_injury (rng : RNG) : String × RNG :=
  rng.choicesOne ["hamstring", "concussion", "sprain", "torn_acl"]
    [0.6, 0.2, 0.18, 0.02] "hamstring"

/-- Embedding of `PlayResolver.resolve_play`.  Returns the raw event, the
offense and defense teams exactly as the source leaves them (the method
body contains no write to either team or to any player), and the advanced
generator.  Draws are consumed in source order, including Python's
short-circuited conditional draws (`yards >= 35 and rng.random() < ...`,
`complete and rng.random() < 0.005`, and the `or`/`and` chain of the
interception test). -/
def resolve_play (ex : ℚ → ℚ) (play_call : PlayCall) (offense defense : Team)
    (rng : RNG) : PlayEvent × Team × Team × RNG :=
  let off_player := play_call.primary
  let play_type := play_call.type_
  let ev : PlayEvent := {
    play_type := play_type
    offense_team := offense.id
    defense_team := defense.id
    primary_player_id := some off_player.id
    involved_ids := [off_player].map Player.id
    result := {} }
  -- fatigue and morale modifiers (computed but never used in the source)
  let _off_effect := (off_player.attributes.awareness / 50) * (1 - off_player.fatigue)
  let _team_coach := offense.coach_quality
  let _def_effect := defense.coach_quality
  let rating_diff := ratingDiff offense defense
  if play_type == "pass" then
    -- `target = off_player` is always present, so only a missing QB
    -- triggers the `qb is None or target is None` safe failure.
    match offense.roster.find? (fun p => p.position == "QB") with
    | none =>
      let res : PlayResult :=
        { complete := some false, yards := some 0, td := some false,
          interception := some false, notes := some "no qb/target" }
      ({ ev with result := res }, offense, defense, rng)
    | some qb =>
      let target := off_player
      let (pu, rng) := rng.next
      let pressure := decide (pu < pressureProb ex defense qb)
      let (cu, rng) := rng.next
      let prob := completionProb qb target offense defense pressure
      let complete := decide (cu < prob)
      let depth := play_call.depth.getD (8 + pyInt ((target.attributes.speed - 50) / 6))
      let (yards, yac, td, interception, rng) :=
        if complete then
          let (yu, rng) := rng.next
          let yac := max 0 (pyInt ((target.attributes.break_tackle / 55) * (yu * 8)))
          let (rv, rng) := rng.randint (-2) 14
          let yard_variation := pyInt ((targetSkill target - 50) / 10) + rv
          let yards := max 0 (depth + yard_variation + yac)
          let (td, rng) :=
            if 35 ≤ yards then
              let (tu, rng) := rng.next
              (decide (tu < tdProbPass target), rng)
            else (false, rng)
          (yards, yac, td, false, rng)
        else
          let (vu, rng) := rng.next
          let int_volatility := interceptionVolatility defense qb vu
          let (i1, rng) := rng.next
          if i1 < int_volatility then ((0 : ℤ), (0 : ℤ), false, true, rng)
          else
            let (i2, rng) := rng.next
            ((0 : ℤ), (0 : ℤ), false, decide (i2 < 0.03) && decide (prob < 0.15), rng)
      let (injury, rng) :=
        if complete then
          let (iu, rng) := rng.next
          if iu < 0.005 then
            let (inj, rng) := sample_injury rng
            (some inj, rng)
          else (none, rng)
        else (none, rng)
      let res : PlayResult :=
        { complete := some complete, yards := some yards, td := some td,
          interception := some interception, pressure := some pressure,
          yac := some yac, injury := injury }
      ({ ev with result := res }, offense, defense, rng)
  else if play_type == "run" then
    let runner := off_player
    let run_skill := runner.attributes.break_tackle * 0.6 + runner.attributes.speed * 0.4
    let line_strength := lineStrengthOf offense
    let def_front := defFrontOf defense
    let (r1, rng) := rng.randint (-1) 10
    let base := max 0 (pyInt ((run_skill - def_front) / 10) + pyInt (line_strength / 50)
      + r1 + pyInt (rating_diff * 5))
    let (r2, rng) := rng.randint 0 10
    let yards := max 0 (base + r2)
    let (td, rng) :=
      if 60 ≤ yards then
        let (tu, rng) := rng.next
        (decide (tu < tdProbRun rating_diff), rng)
      else (false, rng)
    let broken_tackles : ℤ :=
      if 3 < yards then pyInt ((runner.attributes.break_tackle - 40) / 15) else 0
    let (iu, rng) := rng.next
    let (injury, rng) :=
      if iu < 0.004 then
        let (inj, rng) := sample_injury rng
        (some inj, rng)
      else (none, rng)
    let res : PlayResult :=
      { yards := some yards, td := some td,
        broken_tackles := some broken_tackles, injury := injury }
    ({ ev with result := res }, offense, defense, rng)
  else
    let res : PlayResult :=
      { complete := some false, yards := some 0, notes := some "unknown play" }
    ({ ev with result := res }, offense, defense, rng)

/-- Embedding of `EventLog.log`: copy the event, attach a fresh
`uuid.uuid4()` event id and a `datetime.utcnow()` timestamp — both drawn
from ambient entropy, not from the seeded generator — and append to the
ordered buffer. -/
def logEvent (ev : PlayEvent) (log : List PlayEvent) (amb : Amb) :
    List PlayEvent × Amb :=
  let (u, amb) := amb.nextUuid
  let (t, amb) := amb.nextTime
  (log ++ [{ ev with event_id := some u, ts := some t }], amb)

/-- Placeholder player for the (never reached) empty-list case of
`random.choice`. -/
def defaultPlayer : Player :=
  ⟨"", "", "", 0, ⟨50, 50, 50, 50, 50, 50, 50⟩, 0, [], [], 0.5, 0, []⟩

/-- Update the roster member with the given id, modelling Python's
in-place mutation of the shared `Player` object (ids are unique uuids). -/
def updateRoster (t : Team) (pid : String) (f : Player → Player) : Team :=
  { t with roster := t.roster.map fun p => if p.id == pid then f p else p }

/-- Tally a drive score onto a team's `points_for`. -/
def addPF (t : Team) (n : ℤ) : Team :=
  { t with season_stats :=
    { t.season_stats with points_for := t.season_stats.points_for + n } }

/-- Tally a drive score onto a team's `points_against`. -/
def addPA (t : Team) (n : ℤ) : Team :=
  { t with season_stats :=
    { t.season_stats with points_against := t.season_stats.points_against + n } }

/-- Increment a team's season wins. -/
def addWin (t : Team) : Team :=
  { t with season_stats :=
    { t.season_stats with wins := t.season_stats.wins + 1 } }

/-- Increment a team's season losses. -/
def addLoss (t : Team) : Team :=
  { t with season_stats :=
    { t.season_stats with losses := t.season_stats.losses + 1 } }

/-- Mutable state of one drive inside `simulate_game`. -/
structure DriveSt where
  offense : Team
  defense : Team
  drive_yards : ℤ
  drive_score : ℤ
  rng : RNG
  amb : Amb
  log : List PlayEvent
  plays : List PlayEvent

/-- The candidate pool of one play: position filter by play type with the
source's fallback chains. -/
def candsOf (play_type : String) (roster : List Player) : List Player :=
  if play_type == "run" then
    let c := roster.filter fun pl => pl.position == "RB"
    if c = [] then
      roster.filter fun pl => pl.position == "FB" || pl.position == "WR"
    else c
  else
    let c := roster.filter fun pl => pl.position == "WR" || pl.position == "TE"
    if c = [] then roster.filter fun pl => pl.position == "RB" else c

/-- One iteration of the per-drive play loop of `simulate_game`:
scheme-biased play-type choice, candidate pool with fallback chain
(skipping the play when empty), resolution, context stamping, event
logging, drive bookkeeping, and in-place injury application to the
primary player. -/
def playStep (ex : ℚ → ℚ) (game_id : String) (quarter d : ℤ)
    (offenseIsHome : Bool) (st : DriveSt) : DriveSt :=
  let (roll, rng) := st.rng.next
  let play_type := if roll < st.offense.scheme_bias.run then "run" else "pass"
  let candidates := candsOf play_type st.offense.roster
  if candidates = [] then
    -- no appropriate player: skip (the `continue` of the source)
    { st with rng := rng }
  else
    let (primary, rng) := rng.choice candidates defaultPlayer
    let play_call : PlayCall := { type_ := play_type, primary := primary, depth := some 6 }
    let rp := resolve_play ex play_call st.offense st.defense rng
    let ev0 := rp.1
    let offense := rp.2.1
    let defense := rp.2.2.1
    let rng := rp.2.2.2
    let ev : PlayEvent :=
      { ev0 with
        game_id := some game_id, quarter := some quarter,
        drive_index := some d, offense_is_home := some offenseIsHome }
    let (log, amb) := logEvent ev st.log st.amb
    let plays := st.plays ++ [ev]
    let outcome := ev.result
    let (drive_yards, drive_score) :=
      if play_type == "pass" then
        (if outcome.complete.getD false then st.drive_yards + outcome.yards.getD 0
         else st.drive_yards,
         if outcome.td.getD false then st.drive_score + 7 else st.drive_score)
      else
        (st.drive_yards + outcome.yards.getD 0,
         if outcome.td.getD false then st.drive_score + 7 else st.drive_score)
    let (offense, amb) :=
      match outcome.injury with
      | some inj =>
        let (w, amb) := amb.nextTime
        (updateRoster offense primary.id fun p =>
          { p with
            injuries := p.injuries ++ [⟨inj, w⟩],
            career_events := p.career_events ++ [⟨"injury", inj, game_id⟩] }, amb)
      | none => (offense, amb)
    { offense := offense, defense := defense, drive_yards := drive_yards,
      drive_score := drive_score, rng := rng, amb := amb, log := log,
      plays := plays }

/-- The bounded play loop of one drive (`for pnum in range(plays_in_drive)`). -/
def playsLoop (ex : ℚ → ℚ) (game_id : String) (quarter d : ℤ)
    (offenseIsHome : Bool) : ℕ → DriveSt → DriveSt
  | 0, st => st
  | n + 1, st =>
    playsLoop ex game_id quarter d offenseIsHome n
      (playStep ex game_id quarter d offenseIsHome st)

/-- Mutable state of `simulate_game` across drives. -/
structure GameSt where
  home : Team
  away : Team
  scoreHome : ℤ
  scoreAway : ℤ
  rng : RNG
  amb : Amb
  log : List PlayEvent
  plays : List PlayEvent

/-- End-of-drive resolution of `simulate_game`: the redzone conversion
and looser field-goal chances (with Python's `if`/`elif` short-circuit
draw order), then score and season-points bookkeeping. -/
def driveFinish (st : GameSt) (dst : DriveSt) (offenseIsHome : Bool)
    (rating_diff : ℚ) : GameSt :=
  let (cond1, rng) :=
    if dst.drive_score = 0 ∧ 65 ≤ dst.drive_yards then
      let (u, rng) := dst.rng.next
      (decide (u < 0.55 + rating_diff * 0.05), rng)
    else (false, dst.rng)
  let (drive_score, rng) :=
    if cond1 then ((7 : ℤ), rng)
    else
      let (cond2, rng) :=
        if dst.drive_score = 0 ∧ 45 ≤ dst.drive_yards then
          let (u, rng) := rng.next
          (decide (u < 0.30 + rating_diff * 0.04), rng)
        else (false, rng)
      if cond2 then ((3 : ℤ), rng) else (dst.drive_score, rng)
  let home1 := if offenseIsHome then dst.offense else dst.defense
  let away1 := if offenseIsHome then dst.defense else dst.offense
  if 0 < drive_score then
    if offenseIsHome then
      { home := addPF home1 drive_score, away := addPA away1 drive_score,
        scoreHome := st.scoreHome + drive_score, scoreAway := st.scoreAway,
        rng := rng, amb := dst.amb, log := dst.log, plays := dst.plays }
    else
      { home := addPA home1 drive_score, away := addPF away1 drive_score,
        scoreHome := st.scoreHome, scoreAway := st.scoreAway + drive_score,
        rng := rng, amb := dst.amb, log := dst.log, plays := dst.plays }
  else
    let (fgGood, rng) :=
      if 35 < dst.drive_yards then
        let (u, rng) := rng.next
        (decide (u < 0.7), rng)
      else (false, rng)
    if fgGood then
      if offenseIsHome then
        { home := addPF home1 3, away := addPA away1 3,
          scoreHome := st.scoreHome + 3, scoreAway := st.scoreAway,
          rng := rng, amb := dst.amb, log := dst.log, plays := dst.plays }
      else
        { home := addPA home1 3, away := addPF away1 3,
          scoreHome := st.scoreHome, scoreAway := st.scoreAway + 3,
          rng := rng, amb := dst.amb, log := dst.log, plays := dst.plays }
    else
      { home := home1, away := away1, scoreHome := st.scoreHome,
        scoreAway := st.scoreAway, rng := rng, amb := dst.amb,
        log := dst.log, plays := dst.plays }

/-- One drive of `simulate_game`: offense by parity of `d + quarter`,
a random play count in `[4,10]`, the play loop, then the end-of-drive
resolution. -/
def driveStep (ex : ℚ → ℚ) (game_id : String) (st : GameSt) (quarter d : ℤ) :
    GameSt :=
  let offenseIsHome := (d + quarter) % 2 = 0
  let offense := if offenseIsHome then st.home else st.away
  let defense := if offenseIsHome then st.away else st.home
  let rating_diff := (team_rating offense - team_rating defense) / 50
  let (nplays, rng) := st.rng.randint 4 10
  let dst0 : DriveSt :=
    { offense := offense, defense := defense, drive_yards := 0,
      drive_score := 0, rng := rng, amb := st.amb, log := st.log,
      plays := st.plays }
  let dst := playsLoop ex game_id quarter d offenseIsHome nplays.toNat dst0
  driveFinish st dst offenseIsHome rating_diff

/-- The game record returned by `simulate_game`. -/
structure GameRecord where
  game_id : String
  home_id : String
  home_name : String
  away_id : String
  away_name : String
  plays : List PlayEvent
  score_home : ℤ
  score_away : ℤ
deriving DecidableEq

/-- The quarter/drive-index pairs of `simulate_game`, in loop order. -/
def gamePairs : List (ℤ × ℤ) :=
  (List.range' 1 4).flatMap fun q => (List.range 3).map fun d => ((q : ℤ), (d : ℤ))

/-- Embedding of `GameSimulator.simulate_game`: 4 quarters of 3 drives,
then the winner finalization (a strict score comparison; an exact tie
adds zero to both teams' wins and leaves losses untouched). -/
def simulate_game (ex : ℚ → ℚ) (home away : Team) (rng : RNG) (amb : Amb)
    (log : List PlayEvent) :
    GameRecord × Team × Team × RNG × Amb × List PlayEvent :=
  let (game_id, amb) := amb.nextUuid
  let st0 : GameSt :=
    { home := home, away := away, scoreHome := 0, scoreAway := 0,
      rng := rng, amb := amb, log := log, plays := [] }
  let st := gamePairs.foldl (fun s qd => driveStep ex game_id s qd.1 qd.2) st0
  let (home', away') :=
    if st.scoreAway < st.scoreHome then (addWin st.home, addLoss st.away)
    else if st.scoreHome < st.scoreAway then (addLoss st.home, addWin st.away)
    else (st.home, st.away)  -- tie: `wins += 0` on both sides
  ({ game_id := game_id, home_id := home.id, home_name := home.name,
     away_id := away.id, away_name := away.name, plays := st.plays,
     score_home := st.scoreHome, score_away := st.scoreAway },
   home', away', st.rng, st.amb, st.log)

/-- Erase the player fields that ambient entropy can reach during a game
(injury records carry `utcnow` timestamps, career events carry the
ambient game uuid).  Everything `resolve_play` and the drive loop read
(id, position, attributes, fatigue, morale) is preserved. -/
def stripPlayer (p : Player) : Player :=
  { p with injuries := [], career_events := [] }

/-- Team-level erasure of ambient-reachable player fields. -/
def stripTeam (t : Team) : Team :=
  { t with roster := t.roster.map stripPlayer }

/-- Play-call-level erasure. -/
def stripCall (c : PlayCall) : PlayCall :=
  { c with primary := stripPlayer c.primary }

/-- Erase the ambient-injected fields of an event: the `event_id` and
`ts` attached by `EventLog.log` and the game's `uuid.uuid4()` id. -/
def stripEvent (ev : PlayEvent) : PlayEvent :=
  { ev with event_id := none, ts := none, game_id := none }

/-- Embedding of the `FbsSchool` dataclass. -/
structure FbsSchool where
  id : String
  name : String
  prestige : ℚ
  scheme_bias : SchemeBias
  location : String
deriving DecidableEq

/-- Embedding of the `NflFranchise` dataclass. -/
structure NflFranchise where
  id : String
  name : String
  city : String
  prestige : ℚ
deriving DecidableEq

/-- The FBS name list literal of `build_fbs_catalog`. -/
def fbs_names : List String :=
  ["Air Force", "Akron", "Alabama", "Appalachian State", "Arizona", 
   "Arizona State", "Arkansas", "Arkansas State", "Army", "Auburn", 
   "Ball State", "Baylor", "Boise State", "Boston College", 
   "Bowling Green", "Buffalo", "BYU", "California", "Central Michigan", 
   "Charlotte", "Cincinnati", "Clemson", "Coastal Carolina", "Colorado", 
   "Colorado State", "Duke", "East Carolina", "Eastern Michigan", 
   "Florida", "Florida Atlantic", "Florida International", "Florida State", 
   "Fresno State", "Georgia", "Georgia Southern", "Georgia State", 
   "Georgia Tech", "Hawaii", "Houston", "Illinois", "Indiana", "Iowa", 
   "Iowa State", "James Madison", "Kansas", "Kansas State", "Kent State", 
   "Kentucky", "Liberty", "Louisiana", "Louisiana Tech", "Louisville", 
   "LSU", "Marshall", "Maryland", "Memphis", "Miami (FL)", "Miami (OH)", 
   "Michigan", "Michigan State", "Middle Tennessee", "Minnesota", 
   "Mississippi State", "Missouri", "Navy", "NC State", "Nebraska", 
   "Nevada", "New Mexico", "New Mexico State", "North Carolina", 
   "North Texas", "Northern Illinois", "Northwestern", "Notre Dame", 
   "Ohio", "Ohio State", "Oklahoma", "Oklahoma State", "Old Dominion", 
   "Ole Miss", "Oregon", "Oregon State", "Penn State", "Pittsburgh", 
   "Purdue", "Rice", "Rutgers", "San Diego State", "San Jose State", "SMU", 
   "South Alabama", "South Carolina", "South Florida", "Southern Miss", 
   "Stanford", "Syracuse", "TCU", "Temple", "Tennessee", "Texas", 
   "Texas A&M", "Texas State", "Texas Tech", "Toledo", "Troy", "Tulane", 
   "Tulsa", "UAB", "UCF", "UCLA", "UConn", "UMass", "UNLV", "USC", "Utah", 
   "Utah State", "UTEP", "UTSA", "Vanderbilt", "Virginia", "Virginia Tech", 
   "Wake Forest", "Washington", "Washington State", "West Virginia", 
   "Western Kentucky", "Western Michigan", "Wisconsin", "Wyoming", 
   "App State", "Sam Houston", "Jacksonville State", "Kennesaw State", 
   "James Madison (FBS)", "Coastal Carolina (FBS)"]

/-- The franchise (abbreviation, name, city) literal of
`build_nfl_franchises`. -/
def nfl_names : List (String × String × String) :=
  [("BUF", "Bills", "Buffalo"),
   ("MIA", "Dolphins", "Miami"),
   ("NE", "Patriots", "New England"),
   ("NYJ", "Jets", "New York"),
   ("BAL", "Ravens", "Baltimore"),
   ("CIN", "Bengals", "Cincinnati"),
   ("CLE", "Browns", "Cleveland"),
   ("PIT", "Steelers", "Pittsburgh"),
   ("HOU", "Texans", "Houston"),
   ("IND", "Colts", "Indianapolis"),
   ("JAX", "Jaguars", "Jacksonville"),
   ("TEN", "Titans", "Tennessee"),
   ("DEN", "Broncos", "Denver"),
   ("KC", "Chiefs", "Kansas City"),
   ("LV", "Raiders", "Las Vegas"),
   ("LAC", "Chargers", "Los Angeles"),
   ("DAL", "Cowboys", "Dallas"),
   ("NYG", "Giants", "New York"),
   ("PHI", "Eagles", "Philadelphia"),
   ("WAS", "Commanders", "Washington"),
   ("CHI", "Bears", "Chicago"),
   ("DET", "Lions", "Detroit"),
   ("GB", "Packers", "Green Bay"),
   ("MIN", "Vikings", "Minnesota"),
   ("ATL", "Falcons", "Atlanta"),
   ("CAR", "Panthers", "Carolina"),
   ("NO", "Saints", "New Orleans"),
   ("TB", "Buccaneers", "Tampa Bay"),
   ("ARI", "Cardinals", "Arizona"),
   ("LA", "Rams", "Los Angeles"),
   ("SF", "49ers", "San Francisco"),
   ("SEA", "Seahawks", "Seattle")]

/-- Keep only ASCII letters and spaces
(`re.sub(r'[^A-Za-z ]', '', name)`), then `.strip()`. -/
def slugOf (name : String) : String :=
  (String.mk (name.toList.filter fun ch => ch.isAlpha || ch = ' ')).trim

/-- Python `str.split()` with no argument: split on space runs, dropping
empty pieces. -/
def pyWords (s : String) : List String :=
  (s.splitOn " ").filter fun w => w ≠ ""

/-- Zero-padded three-digit rendering (`f"FBS{idx:03d}"`). -/
def pad3 (n : ℕ) : String :=
  if n < 10 then "00" ++ toString n
  else if n < 100 then "0" ++ toString n
  else toString n

/-- The school-abbreviation derivation of `build_fbs_catalog`: first
letters of the slug words, uppercased, truncated to 4; if shorter than 2,
the first word's first 4 letters uppercased; `FBSnnn` when no words. -/
def abbrOf (idx : ℕ) (name : String) : String :=
  let slug := slugOf name
  let words := pyWords slug
  if words = [] then "FBS" ++ pad3 idx
  else
    let abbr := String.mk (((words.map fun w => w.toList.headD ' ').map
      Char.toUpper).take 4)
    if abbr.length < 2 then
      String.mk (((words.headD "").toList.take 4).map Char.toUpper)
    else abbr

/-- Case-insensitive de-duplication preserving first occurrences
(the `seen` set of `build_fbs_catalog`). -/
def dedupNames (names : List String) : List String :=
  (names.foldl (fun acc n =>
    if acc.1.contains n.toLower then acc
    else (acc.1 ++ [n.toLower], acc.2 ++ [n])) ([], [])).2

/-- Embedding of `build_fbs_catalog`: de-duplicated names with
order-derived prestige (floored at 0.35), cyclic scheme bias, and derived
abbreviations. -/
def build_fbs_catalog : List FbsSchool :=
  let unique_names := dedupNames fbs_names
  let total := unique_names.length
  unique_names.enum.map fun e =>
    let idx : ℕ := e.1
    let prestige := max 0.35 (0.95 - (idx : ℚ) / ((total : ℚ) * 1.1))
    let scheme : SchemeBias :=
      ⟨0.45 + ((idx % 5 : ℕ) : ℚ) * 0.05, 0.55 - ((idx % 5 : ℕ) : ℚ) * 0.05⟩
    { id := abbrOf idx e.2, name := e.2, prestige := prestige,
      scheme_bias := scheme, location := e.2 }

/-- The engine's school catalog (`CareerEngine.__init__` builds it once). -/
def fbs_catalog : List FbsSchool := build_fbs_catalog

/-- Embedding of `build_nfl_franchises`: position-derived prestige with a
0.4 floor. -/
def build_nfl_franchises : List NflFranchise :=
  nfl_names.enum.map fun e =>
    { id := e.2.1, name := e.2.2.1, city := e.2.2.2,
      prestige := max 0.4 (0.85 - (e.1 : ℚ) * 0.01) }

/-- The `calendar` dict of a `CareerState`. -/
structure Calendar where
  phase : String
  year : ℤ
  week : ℤ
deriving DecidableEq

/-- A college offer record. -/
structure Offer where
  id : String
  team_name : String
  prestige : ℚ
  location : String
  random_grade : ℚ
deriving DecidableEq

/-- An award record `{level, year, name}`. -/
structure Award where
  level : String
  year : ℤ
  name : String
deriving DecidableEq

/-- A high-school season stat line (`overall_after` is written into the
same dict after attribute progression). -/
structure HsLine where
  year : ℤ
  production_yards : ℤ
  tds : ℤ
  awards : List String
  overall_before : ℚ
  overall_after : Option ℚ
deriving DecidableEq

/-- A college season stat line. -/
structure CollegeLine where
  year : ℤ
  rating : ℚ
  production_yards : ℤ
  tds : ℤ
  rating_after : Option ℚ
deriving DecidableEq

/-- An NFL season stat line. -/
structure NflLine where
  year : ℤ
  overall : ℚ
  pass_yards : ℤ
  pass_tds : ℤ
  ints : ℤ
  rush_yards : ℤ
deriving DecidableEq

/-- Structured stand-ins for the formatted history strings of the career
engine: each constructor carries the values interpolated by the
corresponding f-string (decimal formatting elided). -/
inductive HistoryEntry where
  | created (stars : ℤ) (pos name : String) (pot : ℚ)
  | hsYear (year production tds : ℤ) (ovr : ℚ)
  | hsAward (name : String)
  | hsProgression (year : ℤ) (ovrBefore ovrAfter : ℚ)
  | offersGenerated (count : ℕ) (maxPrestige : ℚ)
  | committed (team_name : String)
  | collegeYear (year : ℤ) (rating : ℚ) (production tds : ℤ)
  | collegeAward (name : String) (year : ℤ)
  | collegeProgression (year : ℤ) (ratingBefore ratingAfter : ℚ)
  | draftOutcome (tier team : String)
  | nflYear (year : ℤ) (ovr : ℚ) (passYds passTds ints : ℤ)
  | nflAward (name : String) (year : ℤ)
  | retiredNote (year : ℤ)
deriving DecidableEq

/-- Embedding of the `CareerState` dataclass. -/
structure CareerState where
  player : Player
  stage : String
  calendar : Calendar
  star_rating : ℚ
  hs_stats : List HsLine
  college_stats : List CollegeLine
  college_offers : List Offer
  college_team : Option FbsSchool
  draft_projection : Option String
  nfl_team : Option String
  awards : List Award
  retired : Bool
  retired_year : Option ℤ
  history : List HistoryEntry
deriving DecidableEq

/-- Embedding of `CareerEngine._overall`: mean of six attributes
(`catching` excluded). -/
def overallOf (p : Player) : ℚ :=
  ([p.attributes.speed, p.attributes.strength, p.attributes.awareness,
    p.attributes.throw_power, p.attributes.route_running,
    p.attributes.break_tackle] : List ℚ).sum / 6

/-- Embedding of `CareerEngine._base_attr_for_stars`:
`42 + stars*9 + uniform(-2, 2)`. -/
def base_attr_for_stars (stars : ℤ) (rng : RNG) : ℚ × RNG :=
  let (u, rng) := rng.uniform (-2) 2
  (42 + (stars : ℚ) * 9 + u, rng)

/-- Embedding of `CareerEngine.create_prospect`.  The prospect's id is an
ambient `uuid.uuid4()`.  Note the star rating is stored as `float(stars)`
with no clamping. -/
def create_prospect (first last pos : String) (stars : ℤ) (rng : RNG)
    (amb : Amb) : CareerState × RNG × Amb :=
  let (base, rng) := base_attr_for_stars stars rng
  let (pu, rng) := rng.uniform (-0.05) 0.08
  let potential := min 1 (max 0.1 (0.35 + (stars : ℚ) * 0.12 + pu))
  let (r1, rng) := rng.randint (-5) 6
  let (r2, rng) := rng.randint (-5) 6
  let (r3, rng) := rng.randint (-4) 8
  let (r4, rng) := if pos == "QB" then rng.randint (-2) 10 else rng.randint (-6) 4
  let (r5, rng) := rng.randint (-6) 6
  let (r6, rng) := rng.randint (-6) 6
  let (r7, rng) := rng.randint (-6) 6
  let attrs : Attributes :=
    { speed := base + r1, strength := base + r2, awareness := base + r3,
      throw_power := base + r4, catching := base + r5,
      route_running := base + r6, break_tackle := base + r7 }
  let (pid, amb) := amb.nextUuid
  let (we, rng) := rng.next
  let (co, rng) := rng.next
  let p : Player :=
    { id := pid, name := first ++ " " ++ last, position := pos, age := 17,
      attributes := attrs, hidden_potential := potential,
      personality := [("work_ethic", we), ("composure", co)],
      career_events := [], morale := 0.5, fatigue := 0, injuries := [] }
  ({ player := p, stage := "HS", calendar := ⟨"HS", 1, 1⟩,
     star_rating := (stars : ℚ), hs_stats := [], college_stats := [],
     college_offers := [], college_team := none, draft_projection := none,
     nfl_team := none, awards := [], retired := false, retired_year := none,
     history := [.created stars pos (first ++ " " ++ last) potential] },
   rng, amb)

/-- Embedding of `CareerEngine.simulate_high_school_year` (draws in source
order, award draws short-circuited behind their production thresholds;
`star_rating` and `hidden_potential` are clamped on update). -/
def simulate_high_school_year (state : CareerState) (year : ℤ) (rng : RNG) :
    CareerState × RNG :=
  let p := state.player
  let volatility := max 0.15 ((6 - state.star_rating) / 6)
  let overall_before := pyRound 1 (overallOf p)
  let (t1, rng) := rng.next
  let touches : ℤ := 80 + pyInt (t1 * 40)
  let per_touch := (p.attributes.speed + p.attributes.awareness) / 18
  let (swing, rng) := rng.uniform (0.55 - volatility * 0.25) (1.2 + volatility * 0.45)
  let production : ℤ := max 250 (pyInt (per_touch * (touches : ℚ) * swing))
  let (tdu, rng) := rng.uniform 0.8 1.2
  let tds : ℤ := pyInt (max 2 ((production : ℚ) / 120 * tdu))
  let (award1, rng) :=
    if 1400 < production then
      let (u, rng) := rng.next
      (decide (u < 0.5), rng)
    else (false, rng)
  let (award2, rng) :=
    if 1800 < production then
      let (u, rng) := rng.next
      (decide (u < 0.35), rng)
    else (false, rng)
  let awards := (if award1 then ["All-State"] else [])
    ++ (if award2 then ["HS National POY"] else [])
  let perf_delta := ((production : ℚ) / 1000 - 1) * (0.4 + volatility * 0.3)
  let potential_delta := (p.hidden_potential - 0.5) * 0.6
  let (su, rng) := rng.uniform (-0.25 * volatility) 0.3
  let star' := max 1 (min 5 (state.star_rating + perf_delta + potential_delta + su))
  let growth := 1 + p.hidden_potential * 2.5 + volatility * 0.8
  let (g1, rng) := rng.uniform 0.4 growth
  let (g2, rng) := rng.uniform 0.4 growth
  let (g3, rng) := rng.uniform 0.4 growth
  let (g4, rng) := rng.uniform 0.4 growth
  let (g5, rng) := rng.uniform 0.4 growth
  let (g6, rng) := rng.uniform 0.4 growth
  let a := p.attributes
  let a' : Attributes :=
    { a with
      speed := a.speed + g1, awareness := a.awareness + g2,
      throw_power := a.throw_power + g3, route_running := a.route_running + g4,
      break_tackle := a.break_tackle + g5, strength := a.strength + g6 }
  let (pdu, rng) := rng.uniform (-0.03 * volatility) (0.03 * volatility)
  let pot_delta := ((production : ℚ) / 1200 - 1) * (0.05 + volatility * 0.05) + pdu
  let potential' := max 0.1 (min 1 (p.hidden_potential + pot_delta))
  let p' := { p with attributes := a', hidden_potential := potential', age := p.age + 1 }
  let overall_after := pyRound 1 (overallOf p')
  let hs_line : HsLine :=
    { year := year, production_yards := production, tds := tds,
      awards := awards, overall_before := overall_before,
      overall_after := some overall_after }
  ({ state with
     player := p',
     hs_stats := state.hs_stats ++ [hs_line],
     awards := state.awards ++ awards.map fun aw => ⟨"HS", year, aw⟩,
     star_rating := star',
     calendar := ⟨"HS", year, 15⟩,
     history := state.history ++ [.hsYear year production tds overall_before]
       ++ (awards.map fun aw => .hsAward aw)
       ++ [.hsProgression year overall_before overall_after] }, rng)

/-- Embedding of `CareerEngine._offer_count_for_rating`: tiered base and
spread by star breakpoints, plus `randint(0, spread)`, floored at 1. -/
def offer_count_for_rating (stars : ℚ) (rng : RNG) : ℤ × RNG :=
  let bs : ℤ × ℤ :=
    if stars ≤ 1.5 then (1, 4)
    else if stars ≤ 2.5 then (3, 7)
    else if stars ≤ 3.5 then (8, 12)
    else if stars ≤ 4.5 then (15, 20)
    else (80, 50)
  let (r, rng) := rng.randint 0 bs.2
  (max 1 (bs.1 + r), rng)

/-- Placeholder school for the (never reached) out-of-range catalog index
of a weighted draw. -/
def defaultSchool : FbsSchool := ⟨"", "", 0, ⟨0.5, 0.5⟩, ""⟩

/-- Embedding of `CareerEngine.generate_college_offers`: a no-op unless
the stage is HS; otherwise per-school desirability weights (one random
multiplier each in catalog order), a size-`min(max(3, num + randint(0,6)),
|catalog|)` weighted sample with repetition, de-duplicated by school id
with a random grade drawn per kept offer. -/
def generate_college_offers (state : CareerState) (rng : RNG) :
    CareerState × RNG :=
  if state.stage != "HS" then (state, rng)
  else
    let recentProd : ℤ := match state.hs_stats.getLast? with
      | some line => line.production_yards
      | none => 0
    let recentTds : ℤ := match state.hs_stats.getLast? with
      | some line => line.tds
      | none => 0
    let perf_score := max 0.2 (min 2.5 ((recentProd : ℚ) / 1200 + (recentTds : ℚ) / 12))
    let (num, rng) := offer_count_for_rating state.star_rating rng
    let wr := fbs_catalog.foldl (fun (acc : List ℚ × RNG) s =>
      let (u, rng) := acc.2.next
      let desirability := s.prestige * (0.35 + state.star_rating / 6)
        * (0.65 + 0.35 * perf_score)
      let desirability := desirability * (0.75 + u * 0.6)
      let desirability :=
        if state.star_rating < 3 then desirability * (1.25 - s.prestige * 0.55)
        else desirability
      let desirability :=
        if 4.5 ≤ state.star_rating then desirability * 1.35 else desirability
      (acc.1 ++ [max 0.01 desirability], rng)) ([], rng)
    let weights := wr.1
    let rng := wr.2
    let (kj, rng) := rng.randint 0 6
    let k : ℤ := min (max 3 (num + kj)) (fbs_catalog.length : ℤ)
    let cr := (List.range k.toNat).foldl (fun (acc : List FbsSchool × RNG) _ =>
      let (i, rng) := acc.2.choicesIdx weights
      (acc.1 ++ [fbs_catalog.getD i defaultSchool], rng)) ([], rng)
    let choices := cr.1
    let rng := cr.2
    let orr := choices.foldl (fun (acc : List Offer × RNG) c =>
      if (acc.1.map Offer.id).contains c.id then acc
      else
        let (g, rng) := acc.2.uniform 0.5 1.0
        (acc.1 ++ [⟨c.id, c.name, c.prestige, c.location, pyRound 2 g⟩], rng))
      ([], rng)
    let offers := orr.1
    let rng := orr.2
    let maxPrestige : ℚ :=
      if offers = [] then 0 else ((offers.map Offer.prestige).foldl max 0)
    ({ state with
       college_offers := offers,
       history := state.history
         ++ [.offersGenerated offers.length maxPrestige] }, rng)

/-- Embedding of `CareerEngine.commit_to_college`: requires the chosen id
among current offers (`ValueError` otherwise, raised before any
mutation); on success looks up the school in the catalog, sets
stage `COLLEGE` and resets the calendar.  There is no stage guard. -/
def commit_to_college (state : CareerState) (team_id : String) :
    Except String CareerState :=
  match state.college_offers.find? (fun o => o.id == team_id) with
  | none => .error "Offer not found"
  | some team =>
    .ok { state with
      college_team := fbs_catalog.find? (fun s => s.id == team_id),
      stage := "COLLEGE",
      calendar := ⟨"COLLEGE", 1, 1⟩,
      history := state.history ++ [.committed team.team_name] }

/-- `commit_to_college` as a total state transformer: the exception is
raised before any mutation, so a failing call leaves the state
unchanged. -/
def commit_app (state : CareerState) (team_id : String) : CareerState :=
  match commit_to_college state team_id with
  | .ok s => s
  | .error _ => state

/-- Python `max(offers, key=lambda o: o["prestige"])`: the first offer of
maximal prestige. -/
def bestOffer (offers : List Offer) : Offer :=
  offers.foldl (fun b o => if b.prestige < o.prestige then o else b)
    (offers.headD ⟨"", "", 0, "", 0⟩)

/-- Embedding of `CareerEngine.promote_to_nfl`: overall rating mapped to
a draft-tier label by fixed breakpoints, a random landing city, stage set
to NFL and the calendar year advanced. -/
def promote_to_nfl (state : CareerState) (rng : RNG) : CareerState × RNG :=
  let rating := overallOf state.player
  let draft_tier :=
    if 88 < rating then "Round 1"
    else if 84 < rating then "Rounds 2-3"
    else if 80 < rating then "Rounds 4-5"
    else if 76 < rating then "Rounds 6-7"
    else "UDFA"
  let possible := build_nfl_franchises.map NflFranchise.city
  let (city, rng) := rng.choice possible ""
  ({ state with
     draft_projection := some draft_tier,
     nfl_team := some city,
     stage := "NFL",
     calendar := ⟨"NFL", state.calendar.year + 1, 1⟩,
     history := state.history ++ [.draftOutcome draft_tier city] }, rng)

/-- The auto-commit preamble of `simulate_college_year`: when the stage
is neither COLLEGE nor NFL, generate offers if there are none and commit
to the highest-prestige offer if not yet committed. -/
def collegeAutoCommit (state : CareerState) (rng : RNG) : CareerState × RNG :=
  if state.stage != "COLLEGE" && state.stage != "NFL" then
    let sr0 :=
      if state.college_offers = [] then generate_college_offers state rng
      else (state, rng)
    let s1 :=
      if sr0.1.college_offers ≠ [] ∧ sr0.1.college_team = none then
        commit_app sr0.1 (bestOffer sr0.1.college_offers).id
      else sr0.1
    (s1, sr0.2)
  else (state, rng)

/-- The end-of-college-year draft-declaration tail of
`simulate_college_year`: probabilistic early promotion from year ≥ 2
above rating 84 (with the `elif` re-check on a failed draw), forced
promotion from year ≥ 3. -/
def collegePromoteTail (state : CareerState) (year : ℤ) (rating_before : ℚ)
    (rng : RNG) : CareerState × RNG :=
  if 84 < rating_before ∧ 2 ≤ year then
    let (u, rng) := rng.next
    if u < 0.4 then promote_to_nfl state rng
    else if 3 ≤ year then promote_to_nfl state rng
    else (state, rng)
  else if 3 ≤ year then promote_to_nfl state rng
  else (state, rng)

/-- The per-year simulation body of `simulate_college_year` (run when the
stage is not NFL, after any auto-commit). -/
def sim_college_body (state : CareerState) (year : ℤ) (rng : RNG) :
    CareerState × RNG :=
    let p := state.player
    let _scheme : SchemeBias := match state.college_team with
      | some ct => ct.scheme_bias
      | none => ⟨0.5, 0.5⟩
    let volatility := max 0.1 ((6 - state.star_rating) / 8)
    let (uu, rng) := rng.next
    let usage : ℤ := 95 + pyInt (uu * 55 * (1 + volatility * 0.4))
    let efficiency := (p.attributes.awareness + p.attributes.speed) / 16
    let (pu, rng) := rng.uniform (0.65 - 0.15 * volatility) (1.15 + 0.2 * volatility)
    let production : ℤ := pyInt (max 400 (efficiency * (usage : ℚ) * pu))
    let (tu, rng) := rng.uniform 0.85 1.25
    let tds : ℤ := pyInt (max 3 ((production : ℚ) / 140 * tu))
    let rating_before := overallOf p
    let (aw1, rng) :=
      if 1600 < production then
        let (u, rng) := rng.next
        (decide (u < 0.35), rng)
      else (false, rng)
    let (aw2, rng) :=
      if 2000 < production ∧ 12 < tds then
        let (u, rng) := rng.next
        (decide (u < 0.2), rng)
      else (false, rng)
    let (aw3, rng) :=
      if 2200 < production ∧ 18 < tds then
        let (u, rng) := rng.next
        (decide (u < 0.15), rng)
      else (false, rng)
    let dev := 1.5 + p.hidden_potential * 3 + volatility * 0.9
    let (g1, rng) := rng.uniform 0.6 dev
    let (g2, rng) := rng.uniform 0.6 dev
    let (g3, rng) := rng.uniform 0.6 dev
    let (g4, rng) := rng.uniform 0.6 dev
    let (g5, rng) := rng.uniform 0.6 dev
    let (g6, rng) := rng.uniform 0.6 dev
    let a := p.attributes
    let a' : Attributes :=
      { a with
        speed := a.speed + g1, awareness := a.awareness + g2,
        throw_power := a.throw_power + g3, route_running := a.route_running + g4,
        break_tackle := a.break_tackle + g5, strength := a.strength + g6 }
    let (pdu, rng) := rng.uniform (-0.03 * volatility) (0.03 * volatility)
    let pot_delta := ((production : ℚ) / 1400 - 1) * (0.06 + 0.03 * volatility) + pdu
    let potential' := max 0.1 (min 1 (p.hidden_potential + pot_delta))
    let p' := { p with attributes := a', hidden_potential := potential', age := p.age + 1 }
    let (su, rng) := rng.uniform 0 0.2
    let star' := min 5 (state.star_rating + su)
    let rating_after := pyRound 1 (overallOf p')
    let college_line : CollegeLine :=
      { year := year, rating := pyRound 1 rating_before,
        production_yards := production, tds := tds,
        rating_after := some rating_after }
    let state :=
      { state with
        player := p',
        college_stats := state.college_stats ++ [college_line],
        awards := state.awards
          ++ (if aw1 then [⟨"College", year, "All-American"⟩] else [])
          ++ (if aw2 then [⟨"College", year, "Heisman"⟩] else [])
          ++ (if aw3 then [⟨"College", year, "Maxwell"⟩] else []),
        star_rating := star',
        calendar := ⟨"COLLEGE", year, 14⟩,
        history := state.history
          ++ [.collegeYear year rating_before production tds]
          ++ (if aw1 then [.collegeAward "All-American" year] else [])
          ++ (if aw2 then [.collegeAward "Heisman" year] else [])
          ++ (if aw3 then [.collegeAward "Maxwell" year] else [])
          ++ [.collegeProgression year rating_before rating_after] }
    collegePromoteTail state year rating_before rng

/-- Embedding of `CareerEngine.simulate_college_year`: auto-generates
offers and commits to the best one when not yet in COLLEGE/NFL, returns
unchanged at NFL, otherwise simulates the year (with clamped potential
and an upward-only star nudge capped at 5) and possibly promotes. -/
def simulate_college_year (state : CareerState) (year : ℤ) (rng : RNG) :
    CareerState × RNG :=
  let sr := collegeAutoCommit state rng
  if sr.1.stage == "NFL" then (sr.1, sr.2)
  else sim_college_body sr.1 year sr.2

/-- Embedding of `CareerEngine.simulate_nfl_seasons`: per-year rating
random walk, derived passing/rushing stat line, consecutive-decline
tracking, award draws at fixed thresholds (All-Pro boosted by a
same-year MVP), and probabilistic retirement from year 12 after two
consecutive declines, which halts the loop. -/
def simulate_nfl_seasons (state : CareerState) (seasons : ℕ) (rng : RNG) :
    CareerState × List NflLine × RNG :=
  go seasons 1 (overallOf state.player) 0 state [] rng
where
  go : ℕ → ℤ → ℚ → ℕ → CareerState → List NflLine → RNG →
      CareerState × List NflLine × RNG
  | 0, _, _, _, state, stats, rng => (state, stats, rng)
  | n + 1, yr, base_rating, declines, state, stats, rng =>
    let p := state.player
    let dev := 0.4 + p.hidden_potential * 0.8
    let (du, rng) := rng.uniform (-0.8) dev
    let base_rating := base_rating + du
    let (uu, rng) := rng.next
    let usage : ℤ := 450 + pyInt (uu * 120)
    let (eu, rng) := rng.uniform (-0.6) 0.8
    let efficiency := 6 + (base_rating - 70) / 12 + eu
    let pass_yards : ℤ := max 1800 (pyInt ((usage : ℚ) * efficiency))
    let (ru, rng) := rng.randint (-2) 5
    let pass_tds : ℤ := max 8 (pyInt ((pass_yards : ℚ) / 180 + (ru : ℚ)))
    let (iu, rng) := rng.randint (-2) 3
    let ints : ℤ := max 3
      (pyInt ((pass_tds : ℚ) / 2.5 * (1.1 - p.attributes.awareness / 120)) + iu)
    let (sy, rng) := rng.uniform 4 10
    let rush_yards : ℤ := max 50 (pyInt ((p.attributes.speed - 40) * sy))
    let declines := match stats.getLast? with
      | some prev =>
        if pass_yards < prev.pass_yards ∧ pass_tds < prev.pass_tds
            ∧ base_rating < prev.overall
        then declines + 1 else 0
      | none => 0
    let statline : NflLine :=
      { year := yr, overall := pyRound 1 base_rating, pass_yards := pass_yards,
        pass_tds := pass_tds, ints := ints, rush_yards := rush_yards }
    let stats := stats ++ [statline]
    let state := { state with
      history := state.history
        ++ [.nflYear yr (pyRound 1 base_rating) pass_yards pass_tds ints] }
    let (mvp, rng) :=
      if 4500 < pass_yards ∧ 25 ≤ pass_tds then
        let (u, rng) := rng.next
        (decide (u < 0.4), rng)
      else (false, rng)
    let state := if mvp then
      { state with
        awards := state.awards ++ [⟨"NFL", yr, "MVP"⟩],
        history := state.history ++ [.nflAward "MVP" yr] }
      else state
    let (probowl, rng) :=
      if 3500 < pass_yards then
        let (u, rng) := rng.next
        (decide (u < 0.5), rng)
      else (false, rng)
    let state := if probowl then
      { state with
        awards := state.awards ++ [⟨"NFL", yr, "Pro Bowl"⟩],
        history := state.history ++ [.nflAward "Pro Bowl" yr] }
      else state
    let (ap1, rng) :=
      if 4800 < pass_yards ∧ 30 < pass_tds then
        let (u, rng) := rng.next
        (decide (u < 0.25), rng)
      else (false, rng)
    let (allpro, rng) :=
      if ap1 then (true, rng)
      else if state.awards.any fun aw =>
          aw.level == "NFL" && aw.year == yr && aw.name == "MVP" then
        let (u, rng) := rng.next
        (decide (u < 0.5), rng)
      else (false, rng)
    let state := if allpro then
      { state with
        awards := state.awards ++ [⟨"NFL", yr, "All-Pro"⟩],
        history := state.history ++ [.nflAward "All-Pro" yr] }
      else state
    let (sb, rng) :=
      if 4000 < pass_yards ∧ 20 < pass_tds then
        let (u, rng) := rng.next
        (decide (u < 0.2), rng)
      else (false, rng)
    let state := if sb then
      { state with
        awards := state.awards ++ [⟨"NFL", yr, "Super Bowl"⟩],
        history := state.history ++ [.nflAward "Super Bowl Champion" yr] }
      else state
    let (retire, rng) :=
      if 12 ≤ yr ∧ 2 ≤ declines then
        let (u, rng) := rng.next
        (decide (u < 0.6), rng)
      else (false, rng)
    if retire then
      ({ state with
         retired := true, retired_year := some yr,
         history := state.history ++ [.retiredNote yr] }, stats, rng)
    else
      go n (yr + 1) base_rating declines state stats rng

/-- The `CareerEngine` operations that transform an existing
`CareerState` (prospect creation builds a fresh state and is treated as
the start of a trace). -/
inductive CareerOp where
  | simHsYear (year : ℤ)
  | genOffers
  | commit (teamId : String)
  | simCollegeYear (year : ℤ)
  | promote
  | simNfl (seasons : ℕ)
deriving DecidableEq

/-- Apply one career operation (a failing commit leaves the state
unchanged, as the exception precedes any mutation). -/
def applyOp (op : CareerOp) (s : CareerState) (rng : RNG) : CareerState × RNG :=
  match op with
  | .simHsYear y => simulate_high_school_year s y rng
  | .genOffers => generate_college_offers s rng
  | .commit teamId => (commit_app s teamId, rng)
  | .simCollegeYear y => simulate_college_year s y rng
  | .promote => promote_to_nfl s rng
  | .simNfl n =>
    let r := simulate_nfl_seasons s n rng
    (r.1, r.2.2)

/-- The sequence of states visited by a sequence of career operations,
including the start state. -/
def careerTrace (s : CareerState) (rng : RNG) : List CareerOp → List CareerState
  | [] => [s]
  | op :: ops =>
    let sr := applyOp op s rng
    s :: careerTrace sr.1 sr.2 ops

/-- Rank of a stage in the HS → COLLEGE → NFL progression. -/
def stageRank (stage : String) : ℕ :=
  if stage == "COLLEGE" then 1 else if stage == "NFL" then 2 else 0

/-- Checks that `commit_to_college` is never invoked on an NFL-stage
state along a run. -/
def noNflCommit (s : CareerState) (rng : RNG) : List CareerOp → Bool
  | [] => true
  | op :: ops =>
    let ok := match op with
      | .commit _ => !(s.stage == "NFL")
      | _ => true
    let sr := applyOp op s rng
    ok && noNflCommit sr.1 sr.2 ops

/-- The per-player counting-stat record initialized by
`StatAggregator.aggregate`. -/
structure Stats where
  games_played : ℚ
  pass_completions : ℤ
  pass_attempts : ℤ
  pass_yards : ℤ
  pass_tds : ℤ
  rush_attempts : ℤ
  rush_yards : ℤ
  rush_tds : ℤ
  broken_tackles : ℤ
  targets : ℤ
  yac : ℤ
deriving DecidableEq

/-- The all-zero initial stat record. -/
def initStats : Stats := ⟨0, 0, 0, 0, 0, 0, 0, 0, 0, 0, 0⟩

/-- The per-event stat update of `StatAggregator.aggregate` (the
incomplete-pass interception branch of the source is a `pass` no-op; the
fractional presence counter is bumped for every event of any type). -/
def applyEv (ev : PlayEvent) (s : Stats) : Stats :=
  let res := ev.result
  let s :=
    if ev.play_type == "pass" then
      let s := { s with pass_attempts := s.pass_attempts + 1 }
      let s :=
        if res.complete.getD false then
          { s with
            pass_completions := s.pass_completions + 1,
            pass_yards := s.pass_yards + res.yards.getD 0,
            pass_tds := s.pass_tds + (if res.td.getD false then 1 else 0),
            yac := s.yac + res.yac.getD 0 }
        else s
      { s with targets := s.targets + 1 }
    else if ev.play_type == "run" then
      { s with
        rush_attempts := s.rush_attempts + 1,
        rush_yards := s.rush_yards + res.yards.getD 0,
        rush_tds := s.rush_tds + (if res.td.getD false then 1 else 0),
        broken_tackles := s.broken_tackles + res.broken_tackles.getD 0 }
    else s
  { s with games_played := s.games_played + 0.01 }

/-- Update the first binding of a key in an association list (the keys of
the aggregation dict are unique, as entries are only ever inserted when
absent). -/
def updateAssoc (pid : String) (f : Stats → Stats) :
    List (String × Stats) → List (String × Stats)
  | [] => []
  | kv :: rest =>
    if kv.1 == pid then (kv.1, f kv.2) :: rest
    else kv :: updateAssoc pid f rest

/-- One event step of the aggregation fold: events without a primary
player id are skipped; a missing key is initialized first. -/
def aggStep (agg : List (String × Stats)) (ev : PlayEvent) :
    List (String × Stats) :=
  match ev.primary_player_id with
  | none => agg
  | some pid =>
    let agg := if (agg.map Prod.fst).contains pid then agg
      else agg ++ [(pid, initStats)]
    updateAssoc pid (applyEv ev) agg

/-- Embedding of `StatAggregator.aggregate`: fold all events, then
normalize the presence counter (`round(gp / 6.0, 2)`). -/
def aggregate (events : List PlayEvent) : List (String × Stats) :=
  let agg := events.foldl aggStep []
  agg.map fun kv => (kv.1, { kv.2 with games_played := pyRound 2 (kv.2.games_played / 6) })

/-- Total aggregated passing yards across all player ids. -/
def sumPassYards (agg : List (String × Stats)) : ℤ :=
  (agg.map fun kv => kv.2.pass_yards).sum

/-- Total of the `yards` field over completed pass-type input events. -/
def completedPassYards (events : List PlayEvent) : ℤ :=
  (events.map fun ev =>
    if ev.play_type == "pass" && ev.result.complete.getD false
    then ev.result.yards.getD 0 else 0).sum

/-- A candidate row built by `AwardEngine.compute_mvp` before ranking
(it carries the exact impact and final scores). -/
structure MvpCandidate where
  player : Player
  stats : Stats
  impact : ℚ
  score : ℚ
deriving DecidableEq

/-- The impact score
`rush_yards*0.7 + pass_yards*1.1 + rush_tds*20 + pass_tds*25 + yac*0.3`. -/
def impactOf (s : Stats) : ℚ :=
  (s.rush_yards : ℚ) * 0.7 + (s.pass_yards : ℚ) * 1.1 + (s.rush_tds : ℚ) * 20
    + (s.pass_tds : ℚ) * 25 + (s.yac : ℚ) * 0.3

/-- The narrative boost `(morale - 0.5)*10 - len(injuries)*5`. -/
def narrativeBoost (p : Player) : ℚ :=
  (p.morale - 0.5) * 10 - (p.injuries.length : ℚ) * 5

/-- Candidate construction of `compute_mvp`: one row per aggregated
player id found in the player lookup, in aggregation order. -/
def mvpCandidates (lookup : List (String × Player))
    (agg : List (String × Stats)) : List MvpCandidate :=
  agg.filterMap fun kv =>
    match lookup.find? fun e => e.1 == kv.1 with
    | none => none
    | some e =>
      let impact := impactOf kv.2
      some ⟨e.2, kv.2, impact, impact + narrativeBoost e.2⟩

/-- Stable insertion into a list sorted by non-increasing score
(Python's stable `sort(key=..., reverse=True)`). -/
def insertDesc (c : MvpCandidate) : List MvpCandidate → List MvpCandidate
  | [] => [c]
  | d :: rest => if c.score < d.score then d :: insertDesc c rest
    else c :: d :: rest

/-- Stable sort by non-increasing score. -/
def sortDesc : List MvpCandidate → List MvpCandidate
  | [] => []
  | c :: rest => insertDesc c (sortDesc rest)

/-- One returned MVP row (scores rounded to two decimals, as in the
source's result dict). -/
structure MvpResult where
  player_id : String
  player_name : String
  score : ℚ
  impact : ℚ
  justification : String
deriving DecidableEq

/-- The justification synthesis of `compute_mvp`. -/
def justificationOf (p : Player) (s : Stats) : String :=
  let reasons :=
    (if 200 < s.pass_yards then [toString s.pass_yards ++ " passing yards"] else [])
    ++ (if 200 < s.rush_yards then [toString s.rush_yards ++ " rushing yards"] else [])
    ++ (if 2 < s.pass_tds + s.rush_tds then
      [toString (s.pass_tds + s.rush_tds) ++ " total TDs"] else [])
    ++ (if 0 < p.injuries.length then
      ["played through " ++ toString p.injuries.length ++ " injury events"] else [])
  if reasons = [] then "consistently high impact plays"
  else String.intercalate "; " reasons

/-- Embedding of `AwardEngine.compute_mvp`: rank candidates by
non-increasing final score and return the top `top_n` rows. -/
def compute_mvp (lookup : List (String × Player)) (agg : List (String × Stats))
    (top_n : ℕ) : List MvpResult :=
  let sorted := sortDesc (mvpCandidates lookup agg)
  (sorted.take top_n).map fun c =>
    { player_id := c.player.id, player_name := c.player.name,
      score := pyRound 2 c.score, impact := pyRound 2 c.impact,
      justification := justificationOf c.player c.stats }

/-- A constant positive stand-in for `math.exp`, used to instantiate
concrete runs (any positive function keeps `logistic` in `(0,1)`). -/
def exOne : ℚ → ℚ := fun _ => 1

/-- A constant unit-draw stream. -/
def constRng (q : ℚ) : RNG := ⟨fun _ => q, 0⟩

/-- A baseline quarterback. -/
def cexQb : Player :=
  ⟨"qb1", "QB One", "QB", 24, ⟨50, 50, 50, 50, 50, 50, 50⟩, 0.5, [], [],
   0.5, 0, []⟩

/-- A receiver with speed 30: its pass-touchdown Bernoulli parameter
`0.06 + (30 - 50)/220` is negative. -/
def cexTarget : Player :=
  ⟨"wr1", "WR Slow", "WR", 24, ⟨30, 50, 50, 50, 50, 50, 50⟩, 0.5, [], [],
   0.5, 0, []⟩

/-- Offense roster with the QB and the slow receiver. -/
def cexOffense : Team :=
  ⟨"off", "Off", "City", [cexQb, cexTarget], ⟨0.5, 0.5⟩, 0.5, 1,
   ⟨0, 0, 0, 0⟩, 100⟩

/-- An empty defense (all roster means fall back to 50). -/
def cexDefense : Team :=
  ⟨"def", "Def", "City", [], ⟨0.5, 0.5⟩, 0.5, 1, ⟨0, 0, 0, 0⟩, 100⟩

/-- A deep pass call to the slow receiver. -/
def cexPassCall : PlayCall := ⟨"pass", cexTarget, some 40⟩

/-- An offense without any quarterback. -/
def cexNoQbOffense : Team :=
  ⟨"off2", "Off2", "City", [cexTarget], ⟨0.5, 0.5⟩, 0.5, 1, ⟨0, 0, 0, 0⟩, 100⟩

/-- A reachable NFL-stage career state whose offer list still contains an
entry (offers persist across promotion, and `commit_to_college` has no
stage guard). -/
def cexNflState : CareerState :=
  { player := cexQb, stage := "NFL", calendar := ⟨"NFL", 5, 1⟩,
    star_rating := 4, hs_stats := [], college_stats := [],
    college_offers := [⟨"AF", "Air Force", 0.95, "Air Force", 0.8⟩],
    college_team := none, draft_projection := some "Round 1",
    nfl_team := some "Buffalo", awards := [], retired := false,
    retired_year := none, history := [] }

/-- The passing-yard contribution of a single event: its `yards` when it
is a completed pass-type event, else 0. -/
def evPassYards (ev : PlayEvent) : ℤ :=
  if ev.play_type == "pass" && ev.result.complete.getD false
  then ev.result.yards.getD 0 else 0

/-- A completed 7-yard pass event whose primary player id is absent: the
aggregator skips it entirely. -/
def cexNoPidEvent : PlayEvent :=
  { play_type := "pass", offense_team := "off", defense_team := "def",
    primary_player_id := none, involved_ids := [],
    result := { complete := some true, yards := some 7 } }

/-- A completed 7-yard pass event with a primary player id. -/
def wPidEvent : PlayEvent :=
  { play_type := "pass", offense_team := "off", defense_team := "def",
    primary_player_id := some "p1", involved_ids := ["p1"],
    result := { complete := some true, yards := some 7 } }

/-- A 5-yard run event without a primary player id: the aggregator skips
it, and it contributes nothing to either side of the pass-yard
identity. -/
def wNoPidRun : PlayEvent :=
  { play_type := "run", offense_team := "off", defense_team := "def",
    primary_player_id := none, involved_ids := [],
    result := { yards := some 5, td := some false } }

/-- A fixed ambient-entropy source for concrete evaluations. -/
def constAmb : Amb := ⟨fun _ => "u", fun _ => "t", 0, 0⟩

/-- The rating-domain invariant of C4: the star rating lies in `[1, 5]` and
the player's hidden potential in `[0.1, 1]`. -/
def ratingsClamped (s : CareerState) : Prop :=
  1 ≤ s.star_rating ∧ s.star_rating ≤ 5 ∧
  0.1 ≤ s.player.hidden_potential ∧ s.player.hidden_potential ≤ 1

instance (s : CareerState) : Decidable (ratingsClamped s) := by
  unfold ratingsClamped
  infer_instance

/-- A concrete in-range high-school career state. -/
def c4S : CareerState :=
  { player := cexQb, stage := "HS", calendar := ⟨"HS", 1, 1⟩,
    star_rating := 3, hs_stats := [], college_stats := [],
    college_offers := [], college_team := none, draft_projection := none,
    nfl_team := none, awards := [], retired := false, retired_year := none,
    history := [] }

/-- One step of the stage progression: the stage rank never decreases and
a retired flag stays set. -/
def stageStep (a b : CareerState) : Prop :=
  stageRank a.stage ≤ stageRank b.stage ∧ (a.retired = true → b.retired = true)

instance (a b : CareerState) : Decidable (stageStep a b) := by
  unfold stageStep
  infer_instance

/-- The bisimulation relation between the per-drive states of two runs
that differ only in ambient entropy. -/
def DriveRel (a b : DriveSt) : Prop :=
  stripTeam a.offense = stripTeam b.offense ∧
  stripTeam a.defense = stripTeam b.defense ∧
  a.drive_yards = b.drive_yards ∧
  a.drive_score = b.drive_score ∧
  a.rng = b.rng ∧
  a.log.map stripEvent = b.log.map stripEvent ∧
  a.plays.map stripEvent = b.plays.map stripEvent

/-- The bisimulation relation between the game states of two runs that
differ only in ambient entropy. -/
def GameRel (a b : GameSt) : Prop :=
  stripTeam a.home = stripTeam b.home ∧
  stripTeam a.away = stripTeam b.away ∧
  a.scoreHome = b.scoreHome ∧
  a.scoreAway = b.scoreAway ∧
  a.rng = b.rng ∧
  a.log.map stripEvent = b.log.map stripEvent ∧
  a.plays.map stripEvent = b.plays.map stripEvent

/-- A home team whose single running back and total run bias guarantee a
resolved (and logged) play on every home-offense drive. -/
def cexRunHome : Team :=
  ⟨"hm", "Home", "City", [⟨"rb1", "RB One", "RB", 23,
    ⟨50, 50, 50, 50, 50, 50, 50⟩, 0.5, [], [], 0.5, 0, []⟩],
   ⟨1, 0⟩, 0.5, 1, ⟨0, 0, 0, 0⟩, 100⟩

/-- An away team with an empty roster: its own drives skip every play. -/
def cexAwayEmpty : Team :=
  ⟨"aw", "Away", "City", [], ⟨0.5, 0.5⟩, 0.5, 1, ⟨0, 0, 0, 0⟩, 100⟩

/-- One ambient-entropy source, with uuid stream "a". -/
def cexAmbA : Amb := ⟨fun _ => "a", fun _ => "t", 0, 0⟩

/-- A second ambient-entropy source, with uuid stream "b". -/
def cexAmbB : Amb := ⟨fun _ => "b", fun _ => "t", 0, 0⟩

theorem resolve_play_pure (ex : ℚ → ℚ) (play_call : PlayCall)
    (offense defense : Team) (rng : RNG) :
    (resolve_play ex play_call offense defense rng).2.1 = offense ∧
    (resolve_play ex play_call offense defense rng).2.2.1 = defense := by
  unfold resolve_play
  simp only [RNG.next, RNG.randint, RNG.choice, RNG.choicesOne]
  repeat' split
  all_goals exact ⟨rfl, rfl⟩

theorem stripPlayer_id (p : Player) : (stripPlayer p).id = p.id := rfl

theorem stripPlayer_position (p : Player) :
    (stripPlayer p).position = p.position := rfl

theorem stripPlayer_attributes (p : Player) :
    (stripPlayer p).attributes = p.attributes := rfl

theorem stripPlayer_fatigue (p : Player) :
    (stripPlayer p).fatigue = p.fatigue := rfl

theorem stripTeam_id (t : Team) : (stripTeam t).id = t.id := rfl

theorem stripTeam_coach (t : Team) :
    (stripTeam t).coach_quality = t.coach_quality := rfl

theorem stripTeam_scheme (t : Team) :
    (stripTeam t).scheme_bias = t.scheme_bias := rfl

theorem stripTeam_roster (t : Team) :
    (stripTeam t).roster = t.roster.map stripPlayer := rfl

theorem team_rating_strip (t : Team) :
    team_rating (stripTeam t) = team_rating t := by
  unfold team_rating
  simp [stripTeam_roster, List.flatMap_map, Function.comp_def,
    stripPlayer_attributes]

theorem ratingDiff_strip (o d : Team) :
    ratingDiff (stripTeam o) (stripTeam d) = ratingDiff o d := by
  unfold ratingDiff
  rw [team_rating_strip, team_rating_strip]

theorem coverageOf_strip (t : Team) : coverageOf (stripTeam t) = coverageOf t := by
  unfold coverageOf
  rw [stripTeam_roster, List.filter_map, List.map_map]
  simp [Function.comp_def, stripPlayer_attributes, stripPlayer_position]

theorem rushOf_strip (t : Team) : rushOf (stripTeam t) = rushOf t := by
  unfold rushOf
  rw [stripTeam_roster, List.filter_map, List.map_map]
  simp [Function.comp_def, stripPlayer_attributes, stripPlayer_position]

theorem lineStrengthOf_strip (t : Team) :
    lineStrengthOf (stripTeam t) = lineStrengthOf t := by
  unfold lineStrengthOf
  rw [stripTeam_roster, List.filter_map, List.map_map]
  simp [Function.comp_def, stripPlayer_attributes, stripPlayer_position]

theorem defFrontOf_strip (t : Team) : defFrontOf (stripTeam t) = defFrontOf t := by
  unfold defFrontOf
  rw [stripTeam_roster, List.filter_map, List.map_map]
  simp [Function.comp_def, stripPlayer_attributes, stripPlayer_position]

theorem qbAccuracy_strip (p : Player) : qbAccuracy (stripPlayer p) = qbAccuracy p := rfl

theorem targetSkill_strip (p : Player) : targetSkill (stripPlayer p) = targetSkill p := rfl

theorem tdProbPass_strip (p : Player) : tdProbPass (stripPlayer p) = tdProbPass p := rfl

theorem pressureProb_strip (ex : ℚ → ℚ) (d : Team) (qb : Player) :
    pressureProb ex (stripTeam d) (stripPlayer qb) = pressureProb ex d qb := by
  unfold pressureProb
  rw [rushOf_strip, stripPlayer_attributes]

theorem completionProb_strip (qb target : Player) (o d : Team) (pr : Bool) :
    completionProb (stripPlayer qb) (stripPlayer target) (stripTeam o)
      (stripTeam d) pr = completionProb qb target o d pr := by
  unfold completionProb
  rw [qbAccuracy_strip, targetSkill_strip, coverageOf_strip, ratingDiff_strip]

theorem interceptionVolatility_strip (d : Team) (qb : Player) (u : ℚ) :
    interceptionVolatility (stripTeam d) (stripPlayer qb) u =
      interceptionVolatility d qb u := by
  unfold interceptionVolatility
  rw [coverageOf_strip, stripPlayer_attributes]

/-- `resolve_play` reads nothing that the ambient-field erasure removes:
running it on stripped inputs yields the identical event and generator,
with the stripped teams passed through. -/
theorem resolve_play_strip (ex : ℚ → ℚ) (c : PlayCall) (o d : Team) (r : RNG) :
    resolve_play ex (stripCall c) (stripTeam o) (stripTeam d) r =
      ((resolve_play ex c o d r).1, stripTeam o, stripTeam d,
       (resolve_play ex c o d r).2.2.2) := by
  unfold resolve_play stripCall
  simp only [stripPlayer_id, stripPlayer_position, stripPlayer_attributes,
    stripPlayer_fatigue, stripTeam_id, stripTeam_coach, ratingDiff_strip,
    pressureProb_strip, completionProb_strip, interceptionVolatility_strip,
    tdProbPass_strip, qbAccuracy_strip, targetSkill_strip,
    lineStrengthOf_strip, defFrontOf_strip, stripTeam_roster,
    List.find?_map, List.map_map, List.map_cons, List.map_nil,
    Function.comp_def]
  cases hf : o.roster.find? (fun p => p.position == "QB") <;>
    simp only [hf, Option.map_none', Option.map_some', pressureProb_strip,
      completionProb_strip, interceptionVolatility_strip, tdProbPass_strip,
      qbAccuracy_strip, targetSkill_strip, stripPlayer_attributes,
      stripPlayer_id, stripPlayer_position] <;>
    (repeat' split) <;> rfl

/-- Eta-expansion of `resolve_play` through its unchanged team
components. -/
theorem resolve_play_eta (ex : ℚ → ℚ) (c : PlayCall) (o d : Team) (r : RNG) :
    resolve_play ex c o d r =
      ((resolve_play ex c o d r).1, o, d, (resolve_play ex c o d r).2.2.2) := by
  conv_lhs => rw [show resolve_play ex c o d r =
    ((resolve_play ex c o d r).1, (resolve_play ex c o d r).2.1,
     (resolve_play ex c o d r).2.2.1, (resolve_play ex c o d r).2.2.2) from rfl]
  rw [(resolve_play_pure ex c o d r).1, (resolve_play_pure ex c o d r).2]

theorem playStep_stats (ex : ℚ → ℚ) (gid : String) (q d : ℤ) (flag : Bool)
    (st : DriveSt) :
    (playStep ex gid q d flag st).offense.season_stats =
      st.offense.season_stats ∧
    (playStep ex gid q d flag st).defense.season_stats =
      st.defense.season_stats := by
  unfold playStep
  simp only [RNG.next, RNG.choice]
  simp only [fun c r => (resolve_play_pure ex c st.offense st.defense r).1,
    fun c r => (resolve_play_pure ex c st.offense st.defense r).2]
  simp only [updateRoster]
  repeat' split
  all_goals exact ⟨rfl, rfl⟩

theorem playsLoop_stats (ex : ℚ → ℚ) (gid : String) (q d : ℤ) (flag : Bool)
    (n : ℕ) (st : DriveSt) :
    (playsLoop ex gid q d flag n st).offense.season_stats =
      st.offense.season_stats ∧
    (playsLoop ex gid q d flag n st).defense.season_stats =
      st.defense.season_stats := by
  induction n generalizing st with
  | zero => exact ⟨rfl, rfl⟩
  | succ m ih =>
    have h1 := playStep_stats ex gid q d flag st
    have h2 := ih (playStep ex gid q d flag st)
    exact ⟨h2.1.trans h1.1, h2.2.trans h1.2⟩

theorem playsLoop_stats_off (ex : ℚ → ℚ) (gid : String) (q d : ℤ)
    (flag : Bool) (n : ℕ) (st : DriveSt) :
    (playsLoop ex gid q d flag n st).offense.season_stats =
      st.offense.season_stats :=
  (playsLoop_stats ex gid q d flag n st).1

theorem playsLoop_stats_def (ex : ℚ → ℚ) (gid : String) (q d : ℤ)
    (flag : Bool) (n : ℕ) (st : DriveSt) :
    (playsLoop ex gid q d flag n st).defense.season_stats =
      st.defense.season_stats :=
  (playsLoop_stats ex gid q d flag n st).2

theorem driveFinish_wl (st : GameSt) (dst : DriveSt) (flag : Bool)
    (rd : ℚ) :
    ((driveFinish st dst flag rd).home.season_stats.wins =
      if flag then dst.offense.season_stats.wins
      else dst.defense.season_stats.wins) ∧
    ((driveFinish st dst flag rd).home.season_stats.losses =
      if flag then dst.offense.season_stats.losses
      else dst.defense.season_stats.losses) ∧
    ((driveFinish st dst flag rd).away.season_stats.wins =
      if flag then dst.defense.season_stats.wins
      else dst.offense.season_stats.wins) ∧
    ((driveFinish st dst flag rd).away.season_stats.losses =
      if flag then dst.defense.season_stats.losses
      else dst.offense.season_stats.losses) := by
  unfold driveFinish
  repeat' split
  all_goals exact ⟨rfl, rfl, rfl, rfl⟩

theorem driveStep_wl (ex : ℚ → ℚ) (gid : String) (st : GameSt) (q d : ℤ) :
    (driveStep ex gid st q d).home.season_stats.wins =
      st.home.season_stats.wins ∧
    (driveStep ex gid st q d).home.season_stats.losses =
      st.home.season_stats.losses ∧
    (driveStep ex gid st q d).away.season_stats.wins =
      st.away.season_stats.wins ∧
    (driveStep ex gid st q d).away.season_stats.losses =
      st.away.season_stats.losses := by
  unfold driveStep
  have h := driveFinish_wl st
    (playsLoop ex gid q d (decide ((d + q) % 2 = 0))
      (st.rng.randint 4 10).1.toNat
      { offense := if (d + q) % 2 = 0 then st.home else st.away,
        defense := if (d + q) % 2 = 0 then st.away else st.home,
        drive_yards := 0, drive_score := 0, rng := (st.rng.randint 4 10).2,
        amb := st.amb, log := st.log, plays := st.plays })
    (decide ((d + q) % 2 = 0))
    ((team_rating (if (d + q) % 2 = 0 then st.home else st.away) -
      team_rating (if (d + q) % 2 = 0 then st.away else st.home)) / 50)
  simp only [playsLoop_stats_off, playsLoop_stats_def] at h
  by_cases hflag : (d + q) % 2 = 0 <;>
    simp only [hflag, decide_True, decide_False] at h ⊢ <;>
    simpa using h

theorem foldDrives_wl (ex : ℚ → ℚ) (gid : String) (pairs : List (ℤ × ℤ))
    (st : GameSt) :
    (pairs.foldl (fun s qd => driveStep ex gid s qd.1 qd.2) st).home.season_stats.wins
        = st.home.season_stats.wins ∧
    (pairs.foldl (fun s qd => driveStep ex gid s qd.1 qd.2) st).home.season_stats.losses
        = st.home.season_stats.losses ∧
    (pairs.foldl (fun s qd => driveStep ex gid s qd.1 qd.2) st).away.season_stats.wins
        = st.away.season_stats.wins ∧
    (pairs.foldl (fun s qd => driveStep ex gid s qd.1 qd.2) st).away.season_stats.losses
        = st.away.season_stats.losses := by
  induction pairs generalizing st with
  | nil => exact ⟨rfl, rfl, rfl, rfl⟩
  | cons p rest ih =>
    have h1 := driveStep_wl ex gid st p.1 p.2
    have h2 := ih (driveStep ex gid st p.1 p.2)
    exact ⟨h2.1.trans h1.1, h2.2.1.trans h1.2.1,
      h2.2.2.1.trans h1.2.2.1, h2.2.2.2.trans h1.2.2.2⟩

/-- C7: after a simulated game, the strictly higher final score increments
the winner's season wins and the loser's season losses by exactly one,
and an exact tie changes neither team's wins nor losses. -/
theorem c7_game_finalization (ex : ℚ → ℚ) (home away : Team) (rng : RNG)
    (amb : Amb) (log : List PlayEvent) :
    ((simulate_game ex home away rng amb log).2.1.season_stats.wins =
      home.season_stats.wins +
        (if (simulate_game ex home away rng amb log).1.score_away <
          (simulate_game ex home away rng amb log).1.score_home then 1 else 0)) ∧
    ((simulate_game ex home away rng amb log).2.1.season_stats.losses =
      home.season_stats.losses +
        (if (simulate_game ex home away rng amb log).1.score_home <
          (simulate_game ex home away rng amb log).1.score_away then 1 else 0)) ∧
    ((simulate_game ex home away rng amb log).2.2.1.season_stats.wins =
      away.season_stats.wins +
        (if (simulate_game ex home away rng amb log).1.score_home <
          (simulate_game ex home away rng amb log).1.score_away then 1 else 0)) ∧
    ((simulate_game ex home away rng amb log).2.2.1.season_stats.losses =
      away.season_stats.losses +
        (if (simulate_game ex home away rng amb log).1.score_away <
          (simulate_game ex home away rng amb log).1.score_home then 1 else 0)) := by
  unfold simulate_game
  have hf := foldDrives_wl ex (amb.nextUuid.1) gamePairs
    { home := home, away := away, scoreHome := 0, scoreAway := 0,
      rng := rng, amb := amb.nextUuid.2, log := log, plays := [] }
  dsimp only
  repeat' split
  all_goals refine ⟨?_, ?_, ?_, ?_⟩
  all_goals
    simp only [addWin, addLoss, hf.1, hf.2.1, hf.2.2.1, hf.2.2.2]
  all_goals omega

/-- C2 (counterexample): the touchdown parameter fed to the Bernoulli
draw of a completed 39-yard pass to a speed-30 receiver is negative, so
not every probability `resolve_play` feeds to a draw lies in `[0, 1]`:
the claim fails at this concrete play call. -/
theorem c2_probability_bounds_cex :
    tdProbPass cexTarget < 0 ∧
    (resolve_play exOne cexPassCall cexOffense cexDefense
      (constRng (1/10))).1.result.complete = some true ∧
    35 ≤ (resolve_play exOne cexPassCall cexOffense cexDefense
      (constRng (1/10))).1.result.yards.getD 0 :=
  of_decide_eq_true (by with_unfolding_all rfl)

/-- C2 (amended): the completion probability is always within its
documented clamp `[0.03, 0.95]`, and the pressure probability always lies
within `[0, 1]` (given only that the exponential is positive); the
interception and touchdown parameters are not clamped and can leave
`[0, 1]` for legal attribute values. -/
theorem c2_probability_bounds_amended (ex : ℚ → ℚ) (hex : ∀ x, 0 < ex x)
    (qb target : Player) (offense defense : Team) (pressure : Bool) :
    (0.03 ≤ completionProb qb target offense defense pressure ∧
      completionProb qb target offense defense pressure ≤ 0.95) ∧
    (0 ≤ pressureProb ex defense qb ∧ pressureProb ex defense qb ≤ 1) := by
  constructor
  · unfold completionProb
    exact ⟨le_max_left _ _, max_le (by norm_num) (min_le_left _ _)⟩
  · unfold pressureProb logistic
    have h := hex (-((rushOf defense - qb.attributes.awareness) / 20))
    constructor
    · apply div_nonneg (by norm_num)
      linarith
    · rw [div_le_one (by linarith)]
      linarith

theorem c2_probability_bounds_witness :
    (0.03 ≤ completionProb cexQb cexTarget cexOffense cexDefense true ∧
      completionProb cexQb cexTarget cexOffense cexDefense true ≤ 0.95) ∧
    (0 ≤ pressureProb exOne cexDefense cexQb ∧
      pressureProb exOne cexDefense cexQb ≤ 1) :=
  c2_probability_bounds_amended exOne (fun _ => one_pos) cexQb cexTarget
    cexOffense cexDefense true

/-- C6: `resolve_play` is a pure function of the play call, the two
rosters and its generator: it returns the offense and defense teams
(hence every player's attributes, injuries, fatigue and morale) exactly
as given — the only state it advances is the generator. -/
theorem c6_resolver_purity (ex : ℚ → ℚ) (play_call : PlayCall)
    (offense defense : Team) (rng : RNG) :
    (resolve_play ex play_call offense defense rng).2.1 = offense ∧
    (resolve_play ex play_call offense defense rng).2.2.1 = defense := by
  unfold resolve_play
  simp only [RNG.next, RNG.randint, RNG.choice, RNG.choicesOne]
  repeat' split
  all_goals exact ⟨rfl, rfl⟩

/-- C10: a pass play whose offense roster has no QB returns the safe
failure event (`complete = false`, `yards = 0`, no touchdown, no
interception, no injury key at all) with the generator untouched — no
further outcome computation happens. -/
theorem c10_missing_qb (ex : ℚ → ℚ) (call : PlayCall) (offense defense : Team)
    (rng : RNG) (hpass : call.type_ = "pass")
    (hq : ∀ p ∈ offense.roster, p.position ≠ "QB") :
    resolve_play ex call offense defense rng =
      ({ play_type := "pass", offense_team := offense.id,
         defense_team := defense.id,
         primary_player_id := some call.primary.id,
         involved_ids := [call.primary.id],
         result :=
           { complete := some false, yards := some 0, td := some false,
             interception := some false, notes := some "no qb/target" } },
       offense, defense, rng) := by
  have hfind : offense.roster.find? (fun p => p.position == "QB") = none := by
    rw [List.find?_eq_none]
    intro p hp
    simpa using hq p hp
  unfold resolve_play
  rw [hpass]
  simp [hfind]

theorem c10_missing_qb_witness :
    cexPassCall.type_ = "pass" ∧
    (∀ p ∈ cexNoQbOffense.roster, p.position ≠ "QB") ∧
    resolve_play exOne cexPassCall cexNoQbOffense cexDefense
        (constRng (1/10)) =
      ({ play_type := "pass", offense_team := "off2", defense_team := "def",
         primary_player_id := some "wr1", involved_ids := ["wr1"],
         result :=
           { complete := some false, yards := some 0, td := some false,
             interception := some false, notes := some "no qb/target" } },
       cexNoQbOffense, cexDefense, constRng (1/10)) :=
  ⟨rfl, of_decide_eq_true (by with_unfolding_all rfl),
    c10_missing_qb exOne cexPassCall cexNoQbOffense cexDefense
      (constRng (1/10)) rfl (of_decide_eq_true (by with_unfolding_all rfl))⟩

/-- C5: `commit_to_college` fails exactly when the chosen id matches no
current offer; a failing call returns the `ValueError` with the state
unchanged (the exception precedes any mutation); a successful call sets
stage COLLEGE and resets the calendar. -/
theorem c5_commit_to_college (s : CareerState) (team_id : String) :
    ((∃ o ∈ s.college_offers, o.id = team_id) ↔
      (commit_to_college s team_id).isOk = true) ∧
    ((commit_to_college s team_id).isOk = false →
      commit_to_college s team_id = .error "Offer not found" ∧
      commit_app s team_id = s) ∧
    (∀ s', commit_to_college s team_id = .ok s' →
      s'.stage = "COLLEGE" ∧ s'.calendar = ⟨"COLLEGE", 1, 1⟩) := by
  unfold commit_app commit_to_college
  cases hf : s.college_offers.find? (fun o => o.id == team_id) with
  | none =>
    have hno : ¬ ∃ o ∈ s.college_offers, o.id = team_id := by
      rw [List.find?_eq_none] at hf
      rintro ⟨o, ho, hid⟩
      exact hf o ho (by simp [hid])
    refine ⟨⟨fun h => absurd h hno,
        fun h => by simp [Except.isOk, Except.toBool] at h⟩,
      fun _ => ⟨rfl, rfl⟩, fun s' h => by cases h⟩
  | some o =>
    have hyes : ∃ o ∈ s.college_offers, o.id = team_id := by
      have hmem := List.mem_of_find?_eq_some hf
      have hp := List.find?_some hf
      exact ⟨o, hmem, by simpa using hp⟩
    refine ⟨⟨fun _ => rfl, fun _ => hyes⟩,
      fun h => by simp [Except.isOk, Except.toBool] at h, fun s' h => ?_⟩
    cases h
    exact ⟨rfl, rfl⟩

theorem c5_commit_to_college_witness :
    ((∃ o ∈ cexNflState.college_offers, o.id = "XX") ↔
      (commit_to_college cexNflState "XX").isOk = true) ∧
    ((commit_to_college cexNflState "XX").isOk = false →
      commit_to_college cexNflState "XX" = .error "Offer not found" ∧
      commit_app cexNflState "XX" = cexNflState) ∧
    (∀ s', commit_to_college cexNflState "XX" = .ok s' →
      s'.stage = "COLLEGE" ∧ s'.calendar = ⟨"COLLEGE", 1, 1⟩) :=
  c5_commit_to_college cexNflState "XX"

theorem roundHalfEven_mono {x y : ℚ} (h : x ≤ y) :
    roundHalfEven x ≤ roundHalfEven y := by
  have hfx : Rat.floor x = Int.floor x := rfl
  have hfy : Rat.floor y = Int.floor y := rfl
  have hf : x.floor ≤ y.floor := by
    rw [hfx, hfy]
    exact Int.floor_le_floor h
  rcases lt_or_eq_of_le hf with hlt | heq
  · have h1 : roundHalfEven x ≤ x.floor + 1 := by
      unfold roundHalfEven
      repeat' split
      all_goals omega
    have h2 : y.floor ≤ roundHalfEven y := by
      unfold roundHalfEven
      repeat' split
      all_goals omega
    omega
  · have hr : x - (x.floor : ℚ) ≤ y - (y.floor : ℚ) := by
      rw [← heq]
      linarith
    unfold roundHalfEven
    rw [← heq] at hr ⊢
    repeat' split
    all_goals first | omega | linarith

theorem pyRound_mono (d : ℕ) {x y : ℚ} (h : x ≤ y) :
    pyRound d x ≤ pyRound d y := by
  unfold pyRound
  have h10 : (0 : ℚ) < 10 ^ d := by positivity
  have hm : roundHalfEven (x * 10 ^ d) ≤ roundHalfEven (y * 10 ^ d) :=
    roundHalfEven_mono (mul_le_mul_of_nonneg_right h (le_of_lt h10))
  apply div_le_div_of_nonneg_right ?_ (le_of_lt h10)
  exact_mod_cast hm

theorem insertDesc_head (c : MvpCandidate) (l : List MvpCandidate) :
    (insertDesc c l).head? = some c ∨ (insertDesc c l).head? = l.head? := by
  cases l with
  | nil => left; rfl
  | cons d rest =>
    rw [insertDesc]
    split
    · right; rfl
    · left; rfl

theorem chain'_insertDesc (c : MvpCandidate) (l : List MvpCandidate)
    (hl : List.Chain' (fun a b => b.score ≤ a.score) l) :
    List.Chain' (fun a b => b.score ≤ a.score) (insertDesc c l) := by
  induction l with
  | nil => simp [insertDesc]
  | cons d rest ih =>
    rw [insertDesc]
    split
    · next hcd =>
      rw [List.chain'_cons']
      refine ⟨?_, ih hl.tail⟩
      intro b hb
      rcases insertDesc_head c rest with hh | hh
      · rw [hh] at hb
        simp only [Option.mem_def, Option.some.injEq] at hb
        subst hb
        exact le_of_lt hcd
      · rw [hh] at hb
        exact (List.chain'_cons'.1 hl).1 b hb
    · next hcd =>
      rw [List.chain'_cons']
      refine ⟨?_, hl⟩
      intro b hb
      simp only [List.head?_cons, Option.mem_def, Option.some.injEq] at hb
      subst hb
      exact not_lt.1 hcd

theorem chain'_sortDesc (l : List MvpCandidate) :
    List.Chain' (fun a b => b.score ≤ a.score) (sortDesc l) := by
  induction l with
  | nil => simp [sortDesc]
  | cons c rest ih =>
    rw [sortDesc]
    exact chain'_insertDesc c (sortDesc rest) ih

/-- C9: `compute_mvp` returns at most `top_n` rows; the rows are sorted
by non-increasing returned (two-decimal rounded) final score, and the
exact final scores (impact plus narrative boost, as assembled by
`mvpCandidates`) of the selected candidates are non-increasing as
well. -/
theorem c9_award_ranking (lookup : List (String × Player))
    (agg : List (String × Stats)) (top_n : ℕ) :
    (compute_mvp lookup agg top_n).length ≤ top_n ∧
    List.Chain' (fun a b => b.score ≤ a.score)
      (compute_mvp lookup agg top_n) ∧
    List.Chain' (fun a b => b.score ≤ a.score)
      ((sortDesc (mvpCandidates lookup agg)).take top_n) := by
  have hsorted := chain'_sortDesc (mvpCandidates lookup agg)
  have htake : List.Chain' (fun a b => b.score ≤ a.score)
      ((sortDesc (mvpCandidates lookup agg)).take top_n) :=
    hsorted.take _
  refine ⟨?_, ?_, htake⟩
  · unfold compute_mvp
    rw [List.length_map, List.length_take]
    exact min_le_left _ _
  · unfold compute_mvp
    rw [List.chain'_map]
    exact htake.imp fun a b h => pyRound_mono 2 h

theorem completedPassYards_eq (events : List PlayEvent) :
    completedPassYards events = (events.map evPassYards).sum := rfl

theorem applyEv_pass_yards (ev : PlayEvent) (s : Stats) :
    (applyEv ev s).pass_yards = s.pass_yards + evPassYards ev := by
  unfold applyEv evPassYards
  repeat' split
  all_goals simp_all

theorem sumPassYards_cons (kv : String × Stats) (l : List (String × Stats)) :
    sumPassYards (kv :: l) = kv.2.pass_yards + sumPassYards l := by
  simp [sumPassYards]

theorem sumPassYards_updateAssoc (pid : String) (ev : PlayEvent)
    (l : List (String × Stats))
    (hmem : (l.map Prod.fst).contains pid = true) :
    sumPassYards (updateAssoc pid (applyEv ev) l) =
      sumPassYards l + evPassYards ev := by
  induction l with
  | nil => simp at hmem
  | cons kv rest ih =>
    rw [updateAssoc]
    split
    · next h =>
      rw [sumPassYards_cons, sumPassYards_cons, applyEv_pass_yards]
      omega
    · next h =>
      have hmem' : (rest.map Prod.fst).contains pid = true := by
        simp only [List.map_cons, List.contains_cons, Bool.or_eq_true] at hmem
        rcases hmem with h1 | h1
        · exact absurd (show pid = kv.1 by simpa using h1).symm
            (by simpa using h)
        · exact h1
      rw [sumPassYards_cons, sumPassYards_cons, ih hmem']
      omega

theorem sumPassYards_aggStep (agg : List (String × Stats)) (ev : PlayEvent)
    (hpid : ev.play_type = "pass" → ev.primary_player_id.isSome = true) :
    sumPassYards (aggStep agg ev) = sumPassYards agg + evPassYards ev := by
  cases hp : ev.primary_player_id with
  | none =>
    have hnp : ¬ ev.play_type = "pass" := by
      intro hps
      rw [hp] at hpid
      exact absurd (hpid hps) (by simp)
    have hz : evPassYards ev = 0 := by
      unfold evPassYards
      simp [hnp]
    unfold aggStep
    rw [hp]
    dsimp only
    rw [hz]
    omega
  | some pid =>
    unfold aggStep
    rw [hp]
    dsimp only
    by_cases hc : ((agg.map Prod.fst).contains pid) = true
    · rw [if_pos hc]
      exact sumPassYards_updateAssoc pid ev agg hc
    · rw [if_neg hc]
      have hmem : (((agg ++ [(pid, initStats)]).map Prod.fst).contains pid)
          = true := by simp
      rw [sumPassYards_updateAssoc pid ev _ hmem]
      have hap : sumPassYards (agg ++ [(pid, initStats)]) = sumPassYards agg := by
        simp [sumPassYards, initStats]
      rw [hap]

theorem sumPassYards_fold (events : List PlayEvent)
    (agg : List (String × Stats))
    (h : ∀ ev ∈ events, ev.play_type = "pass" →
      ev.primary_player_id.isSome = true) :
    sumPassYards (events.foldl aggStep agg) =
      sumPassYards agg + (events.map evPassYards).sum := by
  induction events generalizing agg with
  | nil => simp
  | cons ev rest ih =>
    rw [List.foldl_cons, List.map_cons, List.sum_cons,
      ih (aggStep agg ev) (fun e he => h e (List.mem_cons_of_mem ev he)),
      sumPassYards_aggStep agg ev (h ev (List.mem_cons_self ev rest))]
    omega

theorem sumPassYards_normalize (agg : List (String × Stats)) :
    sumPassYards (agg.map fun kv =>
      (kv.1, { kv.2 with games_played := pyRound 2 (kv.2.games_played / 6) })) =
      sumPassYards agg := by
  unfold sumPassYards
  rw [List.map_map]
  rfl

/-- C8 (amended): for every list of events in which each pass-type event
carries a primary player id, the aggregated passing yards summed over
all player ids equal the sum of the `yards` field over exactly the
completed pass-type input events (events of other types may lack an id:
the aggregator skips them and they contribute no passing yards). -/
theorem c8_aggregation_amended (events : List PlayEvent)
    (h : ∀ ev ∈ events, ev.play_type = "pass" →
      ev.primary_player_id.isSome = true) :
    sumPassYards (aggregate events) = completedPassYards events := by
  unfold aggregate
  rw [completedPassYards_eq, sumPassYards_normalize,
    sumPassYards_fold events [] h]
  simp [sumPassYards]

/-- C8 (counterexample): with an input containing a completed pass event
whose primary player id is `None`, the aggregated pass-yard total (0)
differs from the sum of yards over completed pass events (7), so the
claim fails as stated for arbitrary event lists. -/
theorem c8_aggregation_cex :
    sumPassYards (aggregate [cexNoPidEvent]) ≠
      completedPassYards [cexNoPidEvent] :=
  of_decide_eq_true (by with_unfolding_all rfl)

theorem c8_aggregation_witness :
    (∀ ev ∈ [wPidEvent, wNoPidRun], ev.play_type = "pass" →
      ev.primary_player_id.isSome = true) ∧
    sumPassYards (aggregate [wPidEvent, wNoPidRun]) =
      completedPassYards [wPidEvent, wNoPidRun] :=
  ⟨of_decide_eq_true (by with_unfolding_all rfl),
   c8_aggregation_amended _ (of_decide_eq_true (by with_unfolding_all rfl))⟩

theorem promote_star (s : CareerState) (rng : RNG) :
    (promote_to_nfl s rng).1.star_rating = s.star_rating := rfl

theorem promote_player (s : CareerState) (rng : RNG) :
    (promote_to_nfl s rng).1.player = s.player := rfl

theorem promote_retired (s : CareerState) (rng : RNG) :
    (promote_to_nfl s rng).1.retired = s.retired := rfl

theorem promote_stage (s : CareerState) (rng : RNG) :
    (promote_to_nfl s rng).1.stage = "NFL" := rfl

theorem collegePromoteTail_star (s : CareerState) (y : ℤ) (rb : ℚ)
    (rng : RNG) :
    (collegePromoteTail s y rb rng).1.star_rating = s.star_rating := by
  unfold collegePromoteTail
  repeat' split
  all_goals rfl

theorem collegePromoteTail_player (s : CareerState) (y : ℤ) (rb : ℚ)
    (rng : RNG) :
    (collegePromoteTail s y rb rng).1.player = s.player := by
  unfold collegePromoteTail
  repeat' split
  all_goals rfl

theorem collegePromoteTail_retired (s : CareerState) (y : ℤ) (rb : ℚ)
    (rng : RNG) :
    (collegePromoteTail s y rb rng).1.retired = s.retired := by
  unfold collegePromoteTail
  repeat' split
  all_goals rfl

theorem stageRank_le_two (stage : String) : stageRank stage ≤ 2 := by
  unfold stageRank
  repeat' split
  all_goals omega

theorem collegePromoteTail_rank (s : CareerState) (y : ℤ) (rb : ℚ)
    (rng : RNG) :
    stageRank s.stage ≤ stageRank (collegePromoteTail s y rb rng).1.stage := by
  unfold collegePromoteTail
  repeat' split
  all_goals first
    | exact le_refl _
    | (rw [promote_stage]; exact stageRank_le_two _)

theorem genOffers_keeps (s : CareerState) (rng : RNG) :
    (generate_college_offers s rng).1.star_rating = s.star_rating ∧
    (generate_college_offers s rng).1.player = s.player ∧
    (generate_college_offers s rng).1.stage = s.stage ∧
    (generate_college_offers s rng).1.retired = s.retired := by
  unfold generate_college_offers
  split
  · exact ⟨rfl, rfl, rfl, rfl⟩
  · exact ⟨rfl, rfl, rfl, rfl⟩

theorem commit_app_keeps (s : CareerState) (tid : String) :
    (commit_app s tid).star_rating = s.star_rating ∧
    (commit_app s tid).player = s.player ∧
    (commit_app s tid).retired = s.retired := by
  unfold commit_app commit_to_college
  cases s.college_offers.find? (fun o => o.id == tid) with
  | none => exact ⟨rfl, rfl, rfl⟩
  | some o => exact ⟨rfl, rfl, rfl⟩

theorem commit_app_stage (s : CareerState) (tid : String) :
    (commit_app s tid).stage = s.stage ∨ (commit_app s tid).stage = "COLLEGE" := by
  unfold commit_app commit_to_college
  cases s.college_offers.find? (fun o => o.id == tid) with
  | none => exact Or.inl rfl
  | some o => exact Or.inr rfl

theorem foldl_rng_stream {α β : Type} (step : List β × RNG → α → List β × RNG)
    (hstep : ∀ acc a, ((step acc a).2).stream = acc.2.stream) (l : List α)
    (acc : List β × RNG) :
    ((l.foldl step acc).2).stream = acc.2.stream := by
  induction l generalizing acc with
  | nil => rfl
  | cons a rest ih => rw [List.foldl_cons, ih, hstep]

theorem offer_count_stream (stars : ℚ) (rng : RNG) :
    (offer_count_for_rating stars rng).2.stream = rng.stream := by
  unfold offer_count_for_rating
  rfl

theorem genOffers_stream (s : CareerState) (rng : RNG) :
    (generate_college_offers s rng).2.stream = rng.stream := by
  unfold generate_college_offers
  split
  · rfl
  · refine (foldl_rng_stream _ ?_ _ _).trans ?_
    · intro acc c
      dsimp only
      split
      · rfl
      · rfl
    · dsimp only
      refine (foldl_rng_stream _ ?_ _ _).trans ?_
      · intro acc i
        rfl
      · dsimp only
        refine (foldl_rng_stream _ ?_ _ _).trans ?_
        · intro acc sch
          rfl
        · exact offer_count_stream s.star_rating rng

theorem autoCommit_keeps (s : CareerState) (rng : RNG) :
    (collegeAutoCommit s rng).1.star_rating = s.star_rating ∧
    (collegeAutoCommit s rng).1.player = s.player ∧
    (collegeAutoCommit s rng).1.retired = s.retired ∧
    (collegeAutoCommit s rng).2.stream = rng.stream := by
  unfold collegeAutoCommit
  split
  · dsimp only
    split
    · split
      · refine ⟨?_, ?_, ?_, genOffers_stream s rng⟩
        · rw [(commit_app_keeps _ _).1, (genOffers_keeps s rng).1]
        · rw [(commit_app_keeps _ _).2.1, (genOffers_keeps s rng).2.1]
        · rw [(commit_app_keeps _ _).2.2, (genOffers_keeps s rng).2.2.2]
      · exact ⟨(genOffers_keeps s rng).1, (genOffers_keeps s rng).2.1,
          (genOffers_keeps s rng).2.2.2, genOffers_stream s rng⟩
    · split
      · exact ⟨(commit_app_keeps _ _).1, (commit_app_keeps _ _).2.1,
          (commit_app_keeps _ _).2.2, rfl⟩
      · exact ⟨rfl, rfl, rfl, rfl⟩
  · exact ⟨rfl, rfl, rfl, rfl⟩

theorem star_clamp_lb (star u : ℚ) (h1 : 1 ≤ star) (hu : 0 ≤ u) :
    1 ≤ min 5 (star + (0 + (0.2 - 0) * u)) := by
  refine le_min (by norm_num) ?_
  nlinarith

theorem body_bounds (s : CareerState) (y : ℤ) (rng : RNG)
    (hv : validStream rng.stream) (h1 : 1 ≤ s.star_rating) :
    1 ≤ (sim_college_body s y rng).1.star_rating ∧
    (sim_college_body s y rng).1.star_rating ≤ 5 ∧
    0.1 ≤ (sim_college_body s y rng).1.player.hidden_potential ∧
    (sim_college_body s y rng).1.player.hidden_potential ≤ 1 := by
  unfold sim_college_body
  simp only [collegePromoteTail_star, collegePromoteTail_player,
    RNG.next, RNG.uniform, RNG.randint]
  repeat' split
  all_goals
    exact ⟨star_clamp_lb _ _ h1 ((hv _).1), min_le_left _ _,
      le_max_left _ _, max_le (by norm_num) (min_le_left _ _)⟩

theorem create_bounds (f l pos : String) (stars : ℤ) (rng : RNG) (amb : Amb) :
    (create_prospect f l pos stars rng amb).1.star_rating = (stars : ℚ) ∧
    0.1 ≤ (create_prospect f l pos stars rng amb).1.player.hidden_potential ∧
    (create_prospect f l pos stars rng amb).1.player.hidden_potential ≤ 1 := by
  unfold create_prospect
  repeat' split
  all_goals
    exact ⟨rfl, le_min (by norm_num) (le_max_left _ _), min_le_left _ _⟩

theorem hs_bounds (s : CareerState) (y : ℤ) (rng : RNG) :
    ratingsClamped (simulate_high_school_year s y rng).1 := by
  unfold ratingsClamped simulate_high_school_year
  repeat' split
  all_goals
    exact ⟨le_max_left _ _, max_le (by norm_num) (min_le_left _ _),
      le_max_left _ _, max_le (by norm_num) (min_le_left _ _)⟩

theorem college_bounds (s : CareerState) (y : ℤ) (rng : RNG)
    (hv : validStream rng.stream) (hc : ratingsClamped s) :
    ratingsClamped (simulate_college_year s y rng).1 := by
  have hsplit : simulate_college_year s y rng =
      if (collegeAutoCommit s rng).1.stage == "NFL" then
        ((collegeAutoCommit s rng).1, (collegeAutoCommit s rng).2)
      else
        sim_college_body (collegeAutoCommit s rng).1 y
          (collegeAutoCommit s rng).2 := rfl
  rw [hsplit]
  split
  · refine ⟨?_, ?_, ?_, ?_⟩ <;>
      simp only [(autoCommit_keeps s rng).1, (autoCommit_keeps s rng).2.1] <;>
      exact (by obtain ⟨a, b, c, d⟩ := hc; first | exact a | exact b | exact c | exact d)
  · have hvs : validStream (collegeAutoCommit s rng).2.stream := by
      rw [(autoCommit_keeps s rng).2.2.2]
      exact hv
    have h1 : 1 ≤ (collegeAutoCommit s rng).1.star_rating := by
      rw [(autoCommit_keeps s rng).1]
      exact hc.1
    exact body_bounds (collegeAutoCommit s rng).1 y (collegeAutoCommit s rng).2 hvs h1

/-- C4, amended: `simulate_high_school_year` clamps both ratings
unconditionally; `simulate_college_year` keeps both in range for any valid
random stream starting from an in-range state; but `create_prospect` stores
the requested star count unclamped, so its output is in range only when the
requested count already lies in `[1, 5]`. -/
theorem c4_clamped_ratings_amended (f l pos : String) (stars : ℤ)
    (s : CareerState) (y : ℤ) (rng : RNG) (amb : Amb)
    (hv : validStream rng.stream) (hst : 1 ≤ stars ∧ stars ≤ 5)
    (hc : ratingsClamped s) :
    ratingsClamped (create_prospect f l pos stars rng amb).1 ∧
    ratingsClamped (simulate_high_school_year s y rng).1 ∧
    ratingsClamped (simulate_college_year s y rng).1 := by
  refine ⟨?_, hs_bounds s y rng, college_bounds s y rng hv hc⟩
  obtain ⟨he, hp1, hp2⟩ := create_bounds f l pos stars rng amb
  refine ⟨?_, ?_, hp1, hp2⟩
  · rw [he]
    exact_mod_cast hst.1
  · rw [he]
    exact_mod_cast hst.2

/-- C4 counterexample: `create_prospect` with a requested star count of 6
stores `star_rating = 6`, outside the claimed domain `[1, 5]`. -/
theorem c4_clamped_ratings_cex :
    ¬ ratingsClamped (create_prospect "A" "B" "QB" 6 (constRng (1/2)) constAmb).1 := by
  intro h
  have h6 : (create_prospect "A" "B" "QB" 6 (constRng (1/2)) constAmb).1.star_rating
      = (6 : ℚ) :=
    ((create_bounds "A" "B" "QB" 6 (constRng (1/2)) constAmb).1).trans (by norm_num)
  have h5 := h.2.1
  rw [h6] at h5
  norm_num at h5

theorem c4_clamped_ratings_witness :
    ratingsClamped (create_prospect "A" "B" "QB" 3 (constRng (1/2)) constAmb).1 ∧
    ratingsClamped (simulate_high_school_year c4S 1 (constRng (1/2))).1 ∧
    ratingsClamped (simulate_college_year c4S 1 (constRng (1/2))).1 :=
  c4_clamped_ratings_amended "A" "B" "QB" 3 c4S 1 (constRng (1/2)) constAmb
    (fun _ => ⟨show (0 : ℚ) ≤ 1/2 by norm_num, show (1 : ℚ)/2 < 1 by norm_num⟩)
    ⟨by norm_num, by norm_num⟩
    ⟨show (1 : ℚ) ≤ 3 by norm_num, show (3 : ℚ) ≤ 5 by norm_num,
     show (0.1 : ℚ) ≤ 0.5 by norm_num, show (0.5 : ℚ) ≤ 1 by norm_num⟩

theorem hs_stage (s : CareerState) (y : ℤ) (rng : RNG) :
    (simulate_high_school_year s y rng).1.stage = s.stage := by
  unfold simulate_high_school_year
  repeat' split
  all_goals rfl

theorem hs_retired (s : CareerState) (y : ℤ) (rng : RNG) :
    (simulate_high_school_year s y rng).1.retired = s.retired := by
  unfold simulate_high_school_year
  repeat' split
  all_goals rfl

theorem body_retired (s : CareerState) (y : ℤ) (rng : RNG) :
    (sim_college_body s y rng).1.retired = s.retired := by
  unfold sim_college_body
  simp only [collegePromoteTail_retired]

theorem body_rank (s : CareerState) (y : ℤ) (rng : RNG) :
    stageRank s.stage ≤ stageRank (sim_college_body s y rng).1.stage := by
  unfold sim_college_body
  dsimp only
  repeat' split
  all_goals
    refine le_trans ?_ (collegePromoteTail_rank _ _ _ _)
    exact le_of_eq rfl

theorem stageRank_eq_zero (st : String) (h1 : st ≠ "COLLEGE")
    (h2 : st ≠ "NFL") : stageRank st = 0 := by
  unfold stageRank
  simp [h1, h2]

theorem stageRank_le_one (st : String) (h : st ≠ "NFL") : stageRank st ≤ 1 := by
  unfold stageRank
  repeat' split
  all_goals first | omega | simp_all

theorem autoCommit_rank (s : CareerState) (rng : RNG) :
    stageRank s.stage ≤ stageRank (collegeAutoCommit s rng).1.stage := by
  unfold collegeAutoCommit
  split
  · rename_i hg
    rw [Bool.and_eq_true, bne_iff_ne, bne_iff_ne] at hg
    rw [stageRank_eq_zero s.stage hg.1 hg.2]
    exact Nat.zero_le _
  · exact le_refl _

theorem collegeYear_rank (s : CareerState) (y : ℤ) (rng : RNG) :
    stageRank s.stage ≤ stageRank (simulate_college_year s y rng).1.stage := by
  have hsp : simulate_college_year s y rng =
      if (collegeAutoCommit s rng).1.stage == "NFL" then
        ((collegeAutoCommit s rng).1, (collegeAutoCommit s rng).2)
      else
        sim_college_body (collegeAutoCommit s rng).1 y
          (collegeAutoCommit s rng).2 := rfl
  rw [hsp]
  split
  · exact autoCommit_rank s rng
  · exact le_trans (autoCommit_rank s rng) (body_rank _ y _)

theorem collegeYear_retired (s : CareerState) (y : ℤ) (rng : RNG) :
    (simulate_college_year s y rng).1.retired = s.retired := by
  have hsp : simulate_college_year s y rng =
      if (collegeAutoCommit s rng).1.stage == "NFL" then
        ((collegeAutoCommit s rng).1, (collegeAutoCommit s rng).2)
      else
        sim_college_body (collegeAutoCommit s rng).1 y
          (collegeAutoCommit s rng).2 := rfl
  rw [hsp]
  split
  · exact (autoCommit_keeps s rng).2.2.1
  · exact (body_retired _ y _).trans (autoCommit_keeps s rng).2.2.1

theorem commit_rank (s : CareerState) (tid : String) (h : s.stage ≠ "NFL") :
    stageRank s.stage ≤ stageRank (commit_app s tid).stage := by
  rcases commit_app_stage s tid with he | he
  · rw [he]
  · rw [he]
    have hc : stageRank "COLLEGE" = 1 := rfl
    rw [hc]
    exact stageRank_le_one s.stage h

theorem ite_pst (c : Prop) [inst : Decidable c] (st : String)
    (a b : CareerState × List NflLine × RNG)
    (ha : a.1.stage = st) (hb : b.1.stage = st) :
    (if c then a else b).1.stage = st := by
  split
  · exact ha
  · exact hb

theorem ite_sst (c : Prop) [inst : Decidable c] (st : String)
    (a b : CareerState) (ha : a.stage = st) (hb : b.stage = st) :
    (if c then a else b).stage = st := by
  split
  · exact ha
  · exact hb

theorem ite_pret (c : Prop) [inst : Decidable c]
    (a b : CareerState × List NflLine × RNG)
    (ha : a.1.retired = true) (hb : b.1.retired = true) :
    (if c then a else b).1.retired = true := by
  split
  · exact ha
  · exact hb

theorem ite_sret (c : Prop) [inst : Decidable c] (a b : CareerState)
    (ha : a.retired = true) (hb : b.retired = true) :
    (if c then a else b).retired = true := by
  split
  · exact ha
  · exact hb

theorem nflGo_stage (n : ℕ) (yr : ℤ) (br : ℚ) (dec : ℕ) (s : CareerState)
    (stats : List NflLine) (rng : RNG) :
    (simulate_nfl_seasons.go n yr br dec s stats rng).1.stage = s.stage := by
  induction n generalizing yr br dec s stats rng with
  | zero => rfl
  | succ n ih =>
    unfold simulate_nfl_seasons.go
    simp only [RNG.next, RNG.uniform, RNG.randint]
    refine ite_pst _ _ _ _ ?_ ((ih _ _ _ _ _ _).trans ?_) <;>
      repeat' first
        | rfl
        | (refine ite_sst _ _ _ _ ?_ ?_)

theorem nflGo_retired (n : ℕ) (yr : ℤ) (br : ℚ) (dec : ℕ) (s : CareerState)
    (stats : List NflLine) (rng : RNG) (hr : s.retired = true) :
    (simulate_nfl_seasons.go n yr br dec s stats rng).1.retired = true := by
  induction n generalizing yr br dec s stats rng with
  | zero => exact hr
  | succ n ih =>
    unfold simulate_nfl_seasons.go
    simp only [RNG.next, RNG.uniform, RNG.randint]
    refine ite_pret _ _ _ ?_ (ih _ _ _ _ _ _ ?_) <;>
      repeat' first
        | rfl
        | exact hr
        | (refine ite_sret _ _ _ ?_ ?_)

theorem applyOp_rank (op : CareerOp) (s : CareerState) (rng : RNG)
    (h : ∀ tid, op = .commit tid → s.stage ≠ "NFL") :
    stageRank s.stage ≤ stageRank (applyOp op s rng).1.stage := by
  cases op with
  | simHsYear y => exact le_of_eq (congrArg stageRank (hs_stage s y rng)).symm
  | genOffers =>
    exact le_of_eq (congrArg stageRank (genOffers_keeps s rng).2.2.1).symm
  | commit tid => exact commit_rank s tid (h tid rfl)
  | simCollegeYear y => exact collegeYear_rank s y rng
  | promote =>
    have h2 : stageRank (applyOp .promote s rng).1.stage = 2 :=
      congrArg stageRank (promote_stage s rng)
    rw [h2]
    exact stageRank_le_two s.stage
  | simNfl n =>
    exact le_of_eq (congrArg stageRank (nflGo_stage n 1 (overallOf s.player)
      0 s [] rng)).symm

theorem applyOp_retired (op : CareerOp) (s : CareerState) (rng : RNG)
    (hr : s.retired = true) : (applyOp op s rng).1.retired = true := by
  cases op with
  | simHsYear y => exact (hs_retired s y rng).trans hr
  | genOffers => exact (genOffers_keeps s rng).2.2.2.trans hr
  | commit tid => exact (commit_app_keeps s tid).2.2.trans hr
  | simCollegeYear y => exact (collegeYear_retired s y rng).trans hr
  | promote => exact (promote_retired s rng).trans hr
  | simNfl n => exact nflGo_retired n 1 (overallOf s.player) 0 s [] rng hr

theorem careerTrace_cons_tail (s : CareerState) (rng : RNG)
    (ops : List CareerOp) :
    careerTrace s rng ops = s :: (careerTrace s rng ops).tail := by
  cases ops <;> rfl

/-- C3, amended: along any sequence of career operations in which
`commit_to_college` is never invoked from the NFL stage, the stage rank
(HS 0 → COLLEGE 1 → NFL 2) never decreases and a set retired flag stays
set; the guard is necessary because `commit_to_college` itself checks
only the offer id, so a successful commit from the NFL stage moves the
stage back to COLLEGE. -/
theorem c3_monotonic_stage_amended (s : CareerState) (rng : RNG)
    (ops : List CareerOp) (h : noNflCommit s rng ops = true) :
    List.Chain' stageStep (careerTrace s rng ops) := by
  induction ops generalizing s rng with
  | nil => simp [careerTrace]
  | cons op ops ih =>
    have h1 : ∀ tid, op = CareerOp.commit tid → s.stage ≠ "NFL" := by
      intro tid he
      subst he
      rw [show noNflCommit s rng (CareerOp.commit tid :: ops)
          = ((!(s.stage == "NFL"))
            && noNflCommit (applyOp (CareerOp.commit tid) s rng).1
                 (applyOp (CareerOp.commit tid) s rng).2 ops) from rfl,
        Bool.and_eq_true] at h
      simpa using h.1
    have h2 : noNflCommit (applyOp op s rng).1 (applyOp op s rng).2 ops
        = true := by
      cases op <;>
        simp only [noNflCommit, Bool.true_and, Bool.and_eq_true] at h <;>
        first
          | exact h
          | exact h.2
    have hstep : careerTrace s rng (op :: ops)
        = s :: careerTrace (applyOp op s rng).1 (applyOp op s rng).2 ops := rfl
    rw [hstep,
      careerTrace_cons_tail (applyOp op s rng).1 (applyOp op s rng).2 ops,
      List.chain'_cons]
    refine ⟨⟨applyOp_rank op s rng h1, fun hr => applyOp_retired op s rng hr⟩, ?_⟩
    rw [← careerTrace_cons_tail]
    exact ih _ _ h2

/-- C3 counterexample: from an NFL-stage state that still holds a college
offer, `commit_to_college` succeeds and moves the stage back to COLLEGE,
so the trace of the single operation `commit "AF"` is not
stage-monotone. -/
theorem c3_monotonic_stage_cex :
    ¬ List.Chain' stageStep
      (careerTrace cexNflState (constRng (1/2)) [CareerOp.commit "AF"]) := by
  intro h
  have h2 : careerTrace cexNflState (constRng (1/2)) [CareerOp.commit "AF"]
      = [cexNflState, commit_app cexNflState "AF"] := rfl
  rw [h2] at h
  have h3 : stageStep cexNflState (commit_app cexNflState "AF") :=
    (List.chain'_cons.mp h).1
  have h5 : stageRank cexNflState.stage = 2 := rfl
  have h6 : stageRank (commit_app cexNflState "AF").stage = 1 := rfl
  have h4 := h3.1
  rw [h5, h6] at h4
  omega

theorem c3_monotonic_stage_witness :
    List.Chain' stageStep
      (careerTrace cexNflState (constRng (1/2)) [CareerOp.promote]) :=
  c3_monotonic_stage_amended cexNflState (constRng (1/2)) [CareerOp.promote] rfl

theorem filter_strip (pred : Player → Bool)
    (hpred : ∀ p, pred (stripPlayer p) = pred p)
    (r r' : List Player) (h : r.map stripPlayer = r'.map stripPlayer) :
    (r.filter pred).map stripPlayer = (r'.filter pred).map stripPlayer := by
  have e : ∀ s : List Player,
      (s.filter pred).map stripPlayer = (s.map stripPlayer).filter pred := by
    intro s
    rw [List.filter_map]
    congr 1
    exact List.filter_congr fun p _ => (hpred p).symm ▸ rfl
  rw [e, e, h]

theorem candsOf_strip (pt : String) (r r' : List Player)
    (h : r.map stripPlayer = r'.map stripPlayer) :
    (candsOf pt r).map stripPlayer = (candsOf pt r').map stripPlayer := by
  have hRB := filter_strip (fun pl => pl.position == "RB") (fun _ => rfl) r r' h
  have hFW := filter_strip (fun pl => pl.position == "FB" || pl.position == "WR")
    (fun _ => rfl) r r' h
  have hWT := filter_strip (fun pl => pl.position == "WR" || pl.position == "TE")
    (fun _ => rfl) r r' h
  unfold candsOf
  split
  · dsimp only
    split <;> split
    · exact hFW
    · rename_i hA hB
      exact absurd (List.map_eq_nil_iff.mp (by rw [← hRB, hA, List.map_nil])) hB
    · rename_i hA hB
      exact absurd (List.map_eq_nil_iff.mp (by rw [hRB, hB, List.map_nil])) hA
    · exact hRB
  · dsimp only
    split <;> split
    · exact hRB
    · rename_i hA hB
      exact absurd (List.map_eq_nil_iff.mp (by rw [← hWT, hA, List.map_nil])) hB
    · rename_i hA hB
      exact absurd (List.map_eq_nil_iff.mp (by rw [hWT, hB, List.map_nil])) hA
    · exact hWT

theorem nil_of_strip (l l' : List Player)
    (h : l.map stripPlayer = l'.map stripPlayer) (hn : l = []) : l' = [] := by
  subst hn
  simpa using h.symm

theorem length_of_strip (l l' : List Player)
    (h : l.map stripPlayer = l'.map stripPlayer) : l.length = l'.length := by
  simpa using congrArg List.length h

theorem getD_map_strip (l : List Player) (i : ℕ) (dflt : Player) :
    stripPlayer (l.getD i dflt) = (l.map stripPlayer).getD i (stripPlayer dflt) := by
  induction l generalizing i with
  | nil => simp [List.getD]
  | cons x xs ih =>
    cases i with
    | zero => simp [List.getD]
    | succ j => simp [List.getD, ih j]

theorem getD_strip (l l' : List Player)
    (h : l.map stripPlayer = l'.map stripPlayer) (i : ℕ) (dflt : Player) :
    stripPlayer (l.getD i dflt) = stripPlayer (l'.getD i dflt) := by
  rw [getD_map_strip, getD_map_strip, h]

theorem logEvent_strip (e : PlayEvent) (l : List PlayEvent) (amb : Amb) :
    (logEvent e l amb).1.map stripEvent = l.map stripEvent ++ [stripEvent e] := by
  unfold logEvent
  simp [stripEvent]

theorem addPF_strip (t : Team) (n : ℤ) :
    stripTeam (addPF t n) = addPF (stripTeam t) n := rfl

theorem addPA_strip (t : Team) (n : ℤ) :
    stripTeam (addPA t n) = addPA (stripTeam t) n := rfl

theorem addWin_strip (t : Team) :
    stripTeam (addWin t) = addWin (stripTeam t) := rfl

theorem addLoss_strip (t : Team) :
    stripTeam (addLoss t) = addLoss (stripTeam t) := rfl

theorem updateRoster_strip (s : Team) (pid : String) (g : Player → Player)
    (hg : ∀ p, stripPlayer (g p) = stripPlayer p) :
    stripTeam (updateRoster s pid g) = stripTeam s := by
  unfold stripTeam updateRoster
  simp only [List.map_map]
  congr 1
  refine List.map_congr_left fun p _ => ?_
  by_cases hc : p.id = pid
  · simp [Function.comp_def, hc, hg]
  · simp [Function.comp_def, hc]

theorem season_of_strip (t t' : Team) (h : stripTeam t = stripTeam t') :
    t.season_stats = t'.season_stats := by
  have h2 := congrArg Team.season_stats h
  exact h2

theorem team_rating_of_strip (t t' : Team) (h : stripTeam t = stripTeam t') :
    team_rating t = team_rating t' := by
  rw [← team_rating_strip t, h, team_rating_strip]

theorem updateRoster_strip_inj (s : Team) (pid : String) (inj w gid : String) :
    stripTeam (updateRoster s pid fun p =>
      { p with
        injuries := p.injuries ++ [⟨inj, w⟩],
        career_events := p.career_events ++ [⟨"injury", inj, gid⟩] })
      = stripTeam s :=
  updateRoster_strip s pid _ fun _ => rfl

set_option maxHeartbeats 3200000 in
theorem playStep_rel (ex : ℚ → ℚ) (gA gB : String) (q d : ℤ) (oih : Bool)
    (a b : DriveSt)
    (ho : stripTeam a.offense = stripTeam b.offense)
    (hd : stripTeam a.defense = stripTeam b.defense)
    (hy : a.drive_yards = b.drive_yards)
    (hs : a.drive_score = b.drive_score)
    (hr : a.rng = b.rng)
    (hl : a.log.map stripEvent = b.log.map stripEvent)
    (hp : a.plays.map stripEvent = b.plays.map stripEvent) :
    stripTeam (playStep ex gA q d oih a).offense
      = stripTeam (playStep ex gB q d oih b).offense ∧
    stripTeam (playStep ex gA q d oih a).defense
      = stripTeam (playStep ex gB q d oih b).defense ∧
    (playStep ex gA q d oih a).drive_yards
      = (playStep ex gB q d oih b).drive_yards ∧
    (playStep ex gA q d oih a).drive_score
      = (playStep ex gB q d oih b).drive_score ∧
    (playStep ex gA q d oih a).rng = (playStep ex gB q d oih b).rng ∧
    (playStep ex gA q d oih a).log.map stripEvent
      = (playStep ex gB q d oih b).log.map stripEvent ∧
    (playStep ex gA q d oih a).plays.map stripEvent
      = (playStep ex gB q d oih b).plays.map stripEvent := by
  have hsch0 := congrArg Team.scheme_bias ho
  have hsch : a.offense.scheme_bias = b.offense.scheme_bias := hsch0
  have hroster0 := congrArg Team.roster ho
  have hroster : a.offense.roster.map stripPlayer
      = b.offense.roster.map stripPlayer := hroster0
  have hcs := fun pt => candsOf_strip pt _ _ hroster
  have hlen := fun pt => length_of_strip _ _ (hcs pt)
  have hkey : ∀ (c c' : PlayCall), stripCall c = stripCall c' → ∀ r : RNG,
      (resolve_play ex c a.offense a.defense r).1
        = (resolve_play ex c' b.offense b.defense r).1
      ∧ (resolve_play ex c a.offense a.defense r).2.2.2
        = (resolve_play ex c' b.offense b.defense r).2.2.2 := by
    intro c c' hcc r
    have e1 := resolve_play_strip ex c a.offense a.defense r
    rw [hcc, ho, hd] at e1
    have e2 := resolve_play_strip ex c' b.offense b.defense r
    have e3 := e1.symm.trans e2
    exact ⟨congrArg (fun x => x.1) e3, congrArg (fun x => x.2.2.2) e3⟩
  have hkey2 : ∀ (pt : String) (p p' : Player), stripPlayer p = stripPlayer p' →
      ∀ r : RNG,
      (resolve_play ex ⟨pt, p, some 6⟩ a.offense a.defense r).1
        = (resolve_play ex ⟨pt, p', some 6⟩ b.offense b.defense r).1
      ∧ (resolve_play ex ⟨pt, p, some 6⟩ a.offense a.defense r).2.2.2
        = (resolve_play ex ⟨pt, p', some 6⟩ b.offense b.defense r).2.2.2 := by
    intro pt p p' hpp r
    refine hkey _ _ ?_ r
    show ({ type_ := pt, primary := stripPlayer p, depth := some 6 } : PlayCall)
      = { type_ := pt, primary := stripPlayer p', depth := some 6 }
    rw [hpp]
  have hev := fun pt pt2 i r =>
    (hkey2 pt _ _ (getD_strip _ _ (hcs pt2) i defaultPlayer) r).1
  have hrg := fun pt pt2 i r =>
    (hkey2 pt _ _ (getD_strip _ _ (hcs pt2) i defaultPlayer) r).2
  have hpoA := fun (c : PlayCall) (r : RNG) =>
    (resolve_play_pure ex c a.offense a.defense r).1
  have hpdA := fun (c : PlayCall) (r : RNG) =>
    (resolve_play_pure ex c a.offense a.defense r).2
  have hpoB := fun (c : PlayCall) (r : RNG) =>
    (resolve_play_pure ex c b.offense b.defense r).1
  have hpdB := fun (c : PlayCall) (r : RNG) =>
    (resolve_play_pure ex c b.offense b.defense r).2
  have hnil : ∀ pt, (candsOf pt a.offense.roster = [])
      ↔ (candsOf pt b.offense.roster = []) := by
    intro pt
    constructor
    · exact nil_of_strip _ _ (hcs pt)
    · exact nil_of_strip _ _ (hcs pt).symm
  unfold playStep
  simp only [RNG.next, RNG.choice]
  simp only [hr, hsch, hy, hs, hlen, hev, hrg, hpoA, hpoB, hpdA, hpdB, hnil]
  repeat' split
  all_goals
    refine ⟨?_, hd, rfl, rfl, rfl, ?_, ?_⟩ <;>
      first
        | exact ho
        | exact hl
        | exact hp
        | (rw [updateRoster_strip_inj, updateRoster_strip_inj]
           exact ho)
        | (rw [logEvent_strip, logEvent_strip, hl]
           try rfl)
        | (rw [List.map_append, List.map_append, hp]
           try rfl)

theorem playsLoop_rel (ex : ℚ → ℚ) (gA gB : String) (q d : ℤ) (oih : Bool)
    (n : ℕ) (a b : DriveSt) (h : DriveRel a b) :
    DriveRel (playsLoop ex gA q d oih n a) (playsLoop ex gB q d oih n b) := by
  induction n generalizing a b with
  | zero => exact h
  | succ m ih =>
    refine ih _ _ ?_
    obtain ⟨ho, hd, hy, hs, hr, hl, hp⟩ := h
    exact playStep_rel ex gA gB q d oih a b ho hd hy hs hr hl hp

theorem ite_strip (c : Prop) [inst : Decidable c] (x y x' y' : Team)
    (hx : stripTeam x = stripTeam x') (hy : stripTeam y = stripTeam y') :
    stripTeam (if c then x else y) = stripTeam (if c then x' else y') := by
  split <;> assumption

theorem ite_gs_home (c : Prop) [inst : Decidable c] (x y x' y' : GameSt)
    (hx : stripTeam x.home = stripTeam x'.home)
    (hy : stripTeam y.home = stripTeam y'.home) :
    stripTeam (if c then x else y).home
      = stripTeam (if c then x' else y').home := by
  split <;> assumption

theorem ite_gs_away (c : Prop) [inst : Decidable c] (x y x' y' : GameSt)
    (hx : stripTeam x.away = stripTeam x'.away)
    (hy : stripTeam y.away = stripTeam y'.away) :
    stripTeam (if c then x else y).away
      = stripTeam (if c then x' else y').away := by
  split <;> assumption

theorem ite_gs_sh (c : Prop) [inst : Decidable c] (x y x' y' : GameSt)
    (hx : x.scoreHome = x'.scoreHome) (hy : y.scoreHome = y'.scoreHome) :
    (if c then x else y).scoreHome = (if c then x' else y').scoreHome := by
  split <;> assumption

theorem ite_gs_sa (c : Prop) [inst : Decidable c] (x y x' y' : GameSt)
    (hx : x.scoreAway = x'.scoreAway) (hy : y.scoreAway = y'.scoreAway) :
    (if c then x else y).scoreAway = (if c then x' else y').scoreAway := by
  split <;> assumption

theorem ite_gs_rng (c : Prop) [inst : Decidable c] (x y x' y' : GameSt)
    (hx : x.rng = x'.rng) (hy : y.rng = y'.rng) :
    (if c then x else y).rng = (if c then x' else y').rng := by
  split <;> assumption

theorem ite_gs_log (c : Prop) [inst : Decidable c] (x y x' y' : GameSt)
    (hx : x.log.map stripEvent = x'.log.map stripEvent)
    (hy : y.log.map stripEvent = y'.log.map stripEvent) :
    (if c then x else y).log.map stripEvent
      = (if c then x' else y').log.map stripEvent := by
  split <;> assumption

theorem ite_gs_plays (c : Prop) [inst : Decidable c] (x y x' y' : GameSt)
    (hx : x.plays.map stripEvent = x'.plays.map stripEvent)
    (hy : y.plays.map stripEvent = y'.plays.map stripEvent) :
    (if c then x else y).plays.map stripEvent
      = (if c then x' else y').plays.map stripEvent := by
  split <;> assumption

set_option maxHeartbeats 1600000 in
theorem driveFinish_rel (st st' : GameSt) (dst dst' : DriveSt) (oih : Bool)
    (rd rd' : ℚ) (hrd : rd = rd')
    (hsh : st.scoreHome = st'.scoreHome) (hsa : st.scoreAway = st'.scoreAway)
    (hD : DriveRel dst dst') :
    GameRel (driveFinish st dst oih rd) (driveFinish st' dst' oih rd') := by
  obtain ⟨ho, hd, hy, hs, hr, hl, hp⟩ := hD
  unfold driveFinish GameRel
  simp only [RNG.next]
  rw [hrd, hy, hs, hr, hsh, hsa]
  refine ⟨?_, ?_, ?_, ?_, ?_, ?_, ?_⟩
  · repeat' first
      | exact ho
      | exact hd
      | rfl
      | (refine ite_gs_home _ _ _ _ _ ?_ ?_)
      | (refine ite_strip _ _ _ _ _ ?_ ?_)
      | (rw [addPF_strip, addPF_strip]
         congr 1)
      | (rw [addPA_strip, addPA_strip]
         congr 1)
  · repeat' first
      | exact ho
      | exact hd
      | rfl
      | (refine ite_gs_away _ _ _ _ _ ?_ ?_)
      | (refine ite_strip _ _ _ _ _ ?_ ?_)
      | (rw [addPF_strip, addPF_strip]
         congr 1)
      | (rw [addPA_strip, addPA_strip]
         congr 1)
  · repeat' first
      | rfl
      | (refine ite_gs_sh _ _ _ _ _ ?_ ?_)
  · repeat' first
      | rfl
      | (refine ite_gs_sa _ _ _ _ _ ?_ ?_)
  · repeat' first
      | rfl
      | (refine ite_gs_rng _ _ _ _ _ ?_ ?_)
  · repeat' first
      | exact hl
      | rfl
      | (refine ite_gs_log _ _ _ _ _ ?_ ?_)
  · repeat' first
      | exact hp
      | rfl
      | (refine ite_gs_plays _ _ _ _ _ ?_ ?_)

theorem driveStep_rel (ex : ℚ → ℚ) (gA gB : String) (st st' : GameSt)
    (q d : ℤ) (h : GameRel st st') :
    GameRel (driveStep ex gA st q d) (driveStep ex gB st' q d) := by
  obtain ⟨hh, ha, hsh, hsa, hr, hl, hp⟩ := h
  unfold driveStep
  dsimp only
  rw [hr]
  refine driveFinish_rel _ _ _ _ _ _ _ ?_ hsh hsa ?_
  · split <;>
      rw [team_rating_of_strip _ _ hh, team_rating_of_strip _ _ ha]
  · refine playsLoop_rel _ _ _ _ _ _ _ _ _ ?_
    refine ⟨?_, ?_, rfl, rfl, rfl, hl, hp⟩ <;>
      (split <;> first | exact hh | exact ha)

theorem foldDrives_rel (ex : ℚ → ℚ) (gA gB : String) (pairs : List (ℤ × ℤ))
    (st st' : GameSt) (h : GameRel st st') :
    GameRel (pairs.foldl (fun s qd => driveStep ex gA s qd.1 qd.2) st)
      (pairs.foldl (fun s qd => driveStep ex gB s qd.1 qd.2) st') := by
  induction pairs generalizing st st' with
  | nil => exact h
  | cons x xs ih => exact ih _ _ (driveStep_rel ex gA gB st st' x.1 x.2 h)

theorem addWin_season (t t' : Team) (h : stripTeam t = stripTeam t') :
    (addWin t).season_stats = (addWin t').season_stats := by
  have h2 := season_of_strip t t' h
  unfold addWin
  rw [h2]

theorem addLoss_season (t t' : Team) (h : stripTeam t = stripTeam t') :
    (addLoss t).season_stats = (addLoss t').season_stats := by
  have h2 := season_of_strip t t' h
  unfold addLoss
  rw [h2]

theorem ite_pair_fst_season (c : Prop) [inst : Decidable c]
    (x y x' y' : Team × Team)
    (hx : x.1.season_stats = x'.1.season_stats)
    (hy : y.1.season_stats = y'.1.season_stats) :
    (if c then x else y).1.season_stats
      = (if c then x' else y').1.season_stats := by
  split <;> assumption

theorem ite_pair_snd_season (c : Prop) [inst : Decidable c]
    (x y x' y' : Team × Team)
    (hx : x.2.season_stats = x'.2.season_stats)
    (hy : y.2.season_stats = y'.2.season_stats) :
    (if c then x else y).2.season_stats
      = (if c then x' else y').2.season_stats := by
  split <;> assumption

set_option maxHeartbeats 3200000 in
theorem simulate_game_rel (ex : ℚ → ℚ) (home away : Team) (rng : RNG)
    (amb amb' : Amb) (log : List PlayEvent) :
    (simulate_game ex home away rng amb log).1.plays.map stripEvent
      = (simulate_game ex home away rng amb' log).1.plays.map stripEvent ∧
    (simulate_game ex home away rng amb log).1.score_home
      = (simulate_game ex home away rng amb' log).1.score_home ∧
    (simulate_game ex home away rng amb log).1.score_away
      = (simulate_game ex home away rng amb' log).1.score_away ∧
    (simulate_game ex home away rng amb log).2.1.season_stats
      = (simulate_game ex home away rng amb' log).2.1.season_stats ∧
    (simulate_game ex home away rng amb log).2.2.1.season_stats
      = (simulate_game ex home away rng amb' log).2.2.1.season_stats ∧
    (simulate_game ex home away rng amb log).2.2.2.1
      = (simulate_game ex home away rng amb' log).2.2.2.1 ∧
    (simulate_game ex home away rng amb log).2.2.2.2.2.map stripEvent
      = (simulate_game ex home away rng amb' log).2.2.2.2.2.map stripEvent := by
  have hfold := foldDrives_rel ex amb.nextUuid.1 amb'.nextUuid.1 gamePairs
    { home := home, away := away, scoreHome := 0, scoreAway := 0,
      rng := rng, amb := amb.nextUuid.2, log := log, plays := [] }
    { home := home, away := away, scoreHome := 0, scoreAway := 0,
      rng := rng, amb := amb'.nextUuid.2, log := log, plays := [] }
    ⟨rfl, rfl, rfl, rfl, rfl, rfl, rfl⟩
  obtain ⟨hh, ha, hsh, hsa, hr, hl, hp⟩ := hfold
  unfold simulate_game
  dsimp only
  rw [hsh, hsa]
  refine ⟨hp, rfl, rfl, ?_, ?_, hr, hl⟩ <;>
    repeat' first
      | exact season_of_strip _ _ hh
      | exact season_of_strip _ _ ha
      | exact addWin_season _ _ hh
      | exact addWin_season _ _ ha
      | exact addLoss_season _ _ hh
      | exact addLoss_season _ _ ha
      | (refine ite_pair_fst_season _ _ _ _ _ ?_ ?_)
      | (refine ite_pair_snd_season _ _ _ _ _ ?_ ?_)

/-- C1, amended: with the seeded generator fixed (same base seed and
offset through `seeded_rand`), two runs of `simulate_game` that differ
only in ambient entropy (the `uuid.uuid4()` and `datetime.utcnow()`
sources feeding `EventLog.log`, the game id and injury timestamps)
produce the same event sequence up to the ambient-injected `event_id`,
`ts` and `game_id` fields, the same scores, the same final season
statistics for both teams, and the same final generator state.  Byte
identity of the full logged events fails, because `event_id` and `ts`
are not derived from the seed. -/
theorem c1_determinism_amended (ex : ℚ → ℚ) (home away : Team)
    (env : Option ℤ) (tns offset : ℤ) (amb amb' : Amb)
    (log : List PlayEvent) :
    (simulate_game ex home away (seeded_rand env tns offset) amb
        log).1.plays.map stripEvent
      = (simulate_game ex home away (seeded_rand env tns offset) amb'
        log).1.plays.map stripEvent ∧
    (simulate_game ex home away (seeded_rand env tns offset) amb
        log).1.score_home
      = (simulate_game ex home away (seeded_rand env tns offset) amb'
        log).1.score_home ∧
    (simulate_game ex home away (seeded_rand env tns offset) amb
        log).1.score_away
      = (simulate_game ex home away (seeded_rand env tns offset) amb'
        log).1.score_away ∧
    (simulate_game ex home away (seeded_rand env tns offset) amb
        log).2.1.season_stats
      = (simulate_game ex home away (seeded_rand env tns offset) amb'
        log).2.1.season_stats ∧
    (simulate_game ex home away (seeded_rand env tns offset) amb
        log).2.2.1.season_stats
      = (simulate_game ex home away (seeded_rand env tns offset) amb'
        log).2.2.1.season_stats ∧
    (simulate_game ex home away (seeded_rand env tns offset) amb
        log).2.2.2.1
      = (simulate_game ex home away (seeded_rand env tns offset) amb'
        log).2.2.2.1 ∧
    (simulate_game ex home away (seeded_rand env tns offset) amb
        log).2.2.2.2.2.map stripEvent
      = (simulate_game ex home away (seeded_rand env tns offset) amb'
        log).2.2.2.2.2.map stripEvent :=
  simulate_game_rel ex home away (seeded_rand env tns offset) amb amb' log

/-- C1 counterexample: two runs of `simulate_game` from the same
`seeded_rand` generator but different ambient entropy produce event logs
that are not byte-identical — the `uuid.uuid4()` event ids differ. -/
theorem c1_determinism_cex :
    ¬ ((simulate_game exOne cexRunHome cexAwayEmpty (seeded_rand (some 0) 0 0)
        cexAmbA []).2.2.2.2.2
      = (simulate_game exOne cexRunHome cexAwayEmpty (seeded_rand (some 0) 0 0)
        cexAmbB []).2.2.2.2.2) :=
  of_decide_eq_true (by with_unfolding_all rfl)
